import Mathlib

/-!
Verification of the build orchestration engine of `yugabyte-db-thirdparty`
(`src/python/yugabyte_db_thirdparty/builder.py`), shallowly embedded in Lean.

The `Builder` object of the source is modelled as an explicit state record
(`BState`) threaded through the functions; external collaborators (the
download manager, the per-dependency build recipe, git-based fingerprint
computation, the filesystem) are modelled as inputs supplied through
`BuildEnv` and `Dependency` fields.  Log lines and calls that matter to the
claims are recorded as `Event`s.
-/

set_option maxHeartbeats 1000000
set_option maxRecDepth 4000

namespace YBThirdparty

/-- Build types, from `build_definitions.BUILD_TYPE_*` (the `build_definitions`
package root is not under `src/`; the four values and the two build groups are
taken from the specification, which lists them explicitly). -/
inductive BuildType
  | common
  | uninstrumented
  | asan
  | tsan
  deriving DecidableEq, Repr

/-- Directory-name string of a build type (the Python constants are these
strings). -/
def BuildType.dirName : BuildType → String
  | .common => "common"
  | .uninstrumented => "uninstrumented"
  | .asan => "asan"
  | .tsan => "tsan"

/-- Build groups, from `build_definitions.BUILD_GROUP_*`. -/
inductive BuildGroup
  | common
  | instrumented
  deriving DecidableEq, Repr

/-- `builder.py` line 543: `BUILD_GROUP_COMMON if build_type == BUILD_TYPE_COMMON
else BUILD_GROUP_INSTRUMENTED`. -/
def build_group_for_build_type (bt : BuildType) : BuildGroup :=
  if bt = BuildType.common then BuildGroup.common else BuildGroup.instrumented

/-- Operating-system family (`is_linux()` / `is_macos()` from `sys_detection`). -/
inductive OSFamily
  | linux
  | macos
  | other
  deriving DecidableEq, Repr

/-- Compiler family selected by `--single-compiler-type`. -/
inductive CompilerType
  | gcc
  | clang
  deriving DecidableEq, Repr

/-- `ASAN_FLAGS` from `builder.py` lines 65-69. -/
def ASAN_FLAGS : List String :=
  ["-fsanitize=address", "-fsanitize=undefined", "-DADDRESS_SANITIZER"]

/-- `TSAN_FLAGS` from `builder.py` lines 71-74. -/
def TSAN_FLAGS : List String :=
  ["-fsanitize=thread", "-DTHREAD_SANITIZER"]

/-- The seven ordered flag sequences held by the builder
(`builder.py` lines 79-85). -/
structure FlagState where
  preprocessor_flags : List String
  ld_flags : List String
  executable_only_ld_flags : List String
  compiler_flags : List String
  c_flags : List String
  cxx_flags : List String
  libs : List String
  deriving DecidableEq, Repr

/-- All seven flag sequences empty, as assigned at the start of
`init_compiler_independent_flags` (`builder.py` lines 313-319). -/
def FlagState.empty : FlagState :=
  ⟨[], [], [], [], [], [], []⟩

/-- A static dependency descriptor.  `name`, `version`, `build_group`,
`dir_name`, `copy_sources` mirror fields of the `Dependency` class (which
lives outside `src/`; the fields are those the builder reads).  The external
collaborator behaviour is supplied as data: `download_ok` (outcome of the
download manager call), `build_ok` (outcome of the polymorphic
`dep.build(builder)` recipe), `should_build` (result of
`dep.should_build(builder)`), and the per-dependency additional flag lists
returned by `dep.get_additional_*_flags(builder)`. -/
structure Dependency where
  name : String
  version : String
  build_group : BuildGroup
  dir_name : Option String
  copy_sources : Bool
  archive_name : Option String
  download_ok : Bool
  build_ok : Bool
  should_build : Bool
  additional_compiler_flags : List String
  additional_c_flags : List String
  additional_cxx_flags : List String
  additional_ld_flags : List String
  deriving DecidableEq, Repr

/-- The command-line arguments the orchestration core reads
(`cmd_line_args.py`; `skip` is the comma-split skip list, `none` when the
option is absent or empty). -/
structure Args where
  dependencies : List String
  skip : Option (List String)
  build_type : Option BuildType
  skip_sanitizers : Bool
  download_extract_only : Bool
  verbose : Bool
  deriving DecidableEq, Repr

/-- Immutable run environment: platform and toolchain probes
(`CompilerChoice`, `sys_detection`, `Toolchain` — outside `src/`, modelled as
input data), installed-tree root from `FileSystemLayout`, and filesystem
facts.  `fingerprint` models `get_build_stamp_for_dependency`'s git
interaction as a deterministic function of the dependency name (the spec
guarantees two fingerprints computed from identical inputs are
byte-identical).  `src_dirs_present` is the set of dependency names whose
expected source directory exists; `path_exists` answers the
`os.path.exists` probes for toolchain library files. -/
structure BuildEnv where
  os : OSFamily
  single_compiler_type : Option CompilerType
  use_only_clang : Bool
  building_with_clang : BuildType → Bool
  llvm_major_version : Option Nat
  using_linuxbrew : Bool
  linuxbrew_dir : String
  cc : Option String
  clang_library_dir : String
  processor : String
  toolchain_type : Option String
  tp_installed_dir : String
  fingerprint : String → String
  src_dirs_present : List String
  path_exists : String → Bool

/-- Mutable builder state threaded through the run: the flag sequences, the
global allow-list of shared-library search paths
(`additional_allowed_shared_lib_paths`, a Python set modelled as a
duplicate-free list), the shared-library suffix, the current build type, the
stamp-file store (keyed by dependency name and build type, newest entry
first), and the license-manifest accumulator (`fossa_modules`, module names
only). -/
structure BState where
  flags : FlagState
  additional_allowed_shared_lib_paths : List String
  dylib_suffix : String
  build_type : BuildType
  stamps : List ((String × BuildType) × String)
  fossa_modules : List String
  deriving DecidableEq, Repr

/-- Errors that abort the run (`fatal`, `ValueError`, `IOError`, failed
assertions, and failing external tools all terminate the whole process). -/
inductive BuildError
  | unsupportedPlatform
  | unsupportedLLVMVersion (v : Option Nat)
  | ccIsNone
  | ubsanLibNotFound (path : String)
  | libcxxIncludeDirMissing (path : String)
  | downloadFailed (depName : String)
  | srcDirMissing (depName : String)
  | depBuildFailed (depName : String)
  deriving DecidableEq, Repr

/-- Observable events of a run: the log lines and calls the claims talk
about. `logSkipBuildType` is the "Skipping build type X because build type Y
is specified in the arguments" line; `setBuildType` marks the start of actual
processing of a configuration; `logFullBuildTypeList` is the "Full list of
build types" line from `run`; `preBuild` marks `perform_pre_build_steps`;
`buildDep` marks a `build_dependency` call; `logSkippedDep` is the
"Skipped dependency ..." line. -/
inductive Event
  | logSkipBuildType (skipped : BuildType) (requested : BuildType)
  | setBuildType (bt : BuildType)
  | logFullBuildTypeList (bts : List BuildType)
  | preBuild (dep : Dependency) (bt : BuildType)
  | buildDep (dep : Dependency) (bt : BuildType) (onlyProcessFlags : Bool)
  | logSkippedDep (dep : Dependency) (shouldBuild shouldRebuild : Bool)
  deriving DecidableEq, Repr

/-- Result of a stateful step: final state, emitted events (in order), and
the error that aborted it, if any. -/
structure RunResult where
  state : BState
  events : List Event
  error : Option BuildError
  deriving DecidableEq, Repr

/-- Path join (`os.path.join` on absolute-prefix paths). -/
def pjoin (a b : String) : String := a ++ "/" ++ b

/-- Modelled from the spec: `get_rpath_flag` lives in `builder_helpers.py`
(not under `src/`); it turns a path into the linker run-path flag. -/
def get_rpath_flag (p : String) : String := "-Wl,-rpath=" ++ p

/-- Modelled from the spec: `PLACEHOLDER_RPATH` lives in `builder_helpers.py`
(not under `src/`); it is a long placeholder run-path token injected on Linux
so the rpath can be rewritten post-build. -/
def PLACEHOLDER_RPATH : String :=
  "/tmp/making_sure_we_have_enough_room_to_set_rpath_later_0123456789"

/-- Insertion into the allow-list set (Python `set.add`). -/
def insertPath (l : List String) (p : String) : List String :=
  if p ∈ l then l else l ++ [p]

/-! ### Primitive flag-state operations (`builder.py` lines 300-389) -/

/-- `add_include_path` (lines 300-305): appends `-I<path>` to both the
preprocessor flags and the compiler flags. -/
def add_include_path (st : BState) (include_path : String) : BState :=
  let cmd_line_arg := "-I" ++ include_path
  { st with flags := { st.flags with
      preprocessor_flags := st.flags.preprocessor_flags ++ [cmd_line_arg],
      compiler_flags := st.flags.compiler_flags ++ [cmd_line_arg] } }

/-- `add_rpath` (lines 381-384): appends the rpath flag to the linker flags
and records the path into the allowed shared-library path set. -/
def add_rpath (st : BState) (path : String) : BState :=
  { st with
      flags := { st.flags with
        ld_flags := st.flags.ld_flags ++ [get_rpath_flag path] },
      additional_allowed_shared_lib_paths :=
        insertPath st.additional_allowed_shared_lib_paths path }

/-- `prepend_rpath` (lines 386-389): inserts the rpath flag at the front of
the linker flags and records the path into the allowed path set. -/
def prepend_rpath (st : BState) (path : String) : BState :=
  { st with
      flags := { st.flags with
        ld_flags := get_rpath_flag path :: st.flags.ld_flags },
      additional_allowed_shared_lib_paths :=
        insertPath st.additional_allowed_shared_lib_paths path }

/-- `add_lib_dir_and_rpath` (lines 369-373): appends `-L<dir>` then delegates
to `add_rpath`. -/
def add_lib_dir_and_rpath (st : BState) (lib_dir : String) : BState :=
  let st := { st with flags := { st.flags with
      ld_flags := st.flags.ld_flags ++ ["-L" ++ lib_dir] } }
  add_rpath st lib_dir

/-- `prepend_lib_dir_and_rpath` (lines 375-379): inserts `-L<dir>` at the
front then delegates to `prepend_rpath` (which inserts in front of that). -/
def prepend_lib_dir_and_rpath (st : BState) (lib_dir : String) : BState :=
  let st := { st with flags := { st.flags with
      ld_flags := ("-L" ++ lib_dir) :: st.flags.ld_flags } }
  prepend_rpath st lib_dir

/-- Append to the general compiler flags. -/
def addCompilerFlags (st : BState) (fs : List String) : BState :=
  { st with flags := { st.flags with
      compiler_flags := st.flags.compiler_flags ++ fs } }

/-- Append to the C++-only flags. -/
def addCxxFlags (st : BState) (fs : List String) : BState :=
  { st with flags := { st.flags with
      cxx_flags := st.flags.cxx_flags ++ fs } }

/-- Append to the general linker flags. -/
def addLdFlags (st : BState) (fs : List String) : BState :=
  { st with flags := { st.flags with
      ld_flags := st.flags.ld_flags ++ fs } }

/-- Append to the executable-only linker flags. -/
def addExeLdFlags (st : BState) (fs : List String) : BState :=
  { st with flags := { st.flags with
      executable_only_ld_flags := st.flags.executable_only_ld_flags ++ fs } }

/-! ### Effective flag accessors (`builder.py` lines 722-742) -/

/-- `get_effective_compiler_flags` (lines 722-723). -/
def get_effective_compiler_flags (st : BState) (dep : Dependency) : List String :=
  st.flags.compiler_flags ++ dep.additional_compiler_flags

/-- `get_effective_cxx_flags` (lines 725-728). -/
def get_effective_cxx_flags (st : BState) (dep : Dependency) : List String :=
  st.flags.cxx_flags ++ get_effective_compiler_flags st dep ++
    dep.additional_cxx_flags

/-- `get_effective_c_flags` (lines 730-733). -/
def get_effective_c_flags (st : BState) (dep : Dependency) : List String :=
  st.flags.c_flags ++ get_effective_compiler_flags st dep ++
    dep.additional_c_flags

/-- `get_effective_ld_flags` (lines 735-736). -/
def get_effective_ld_flags (st : BState) (dep : Dependency) : List String :=
  st.flags.ld_flags ++ dep.additional_ld_flags

/-- `get_effective_executable_ld_flags` (lines 738-739). -/
def get_effective_executable_ld_flags (st : BState) (dep : Dependency) : List String :=
  st.flags.ld_flags ++ st.flags.executable_only_ld_flags ++
    dep.additional_ld_flags

/-- `get_effective_preprocessor_flags` (lines 741-742): returns a copy of the
configuration-scoped preprocessor flags; the `Dependency` interface offers no
per-dependency preprocessor overrides and the function ignores `dep`. -/
def get_effective_preprocessor_flags (st : BState) (dep : Dependency) : List String :=
  st.flags.preprocessor_flags

/-! ### Flag initialization (`builder.py` lines 307-361, 582-720) -/

/-- `add_linuxbrew_flags` (lines 363-367): when building against Linuxbrew,
point the dynamic linker at the Linuxbrew `ld.so` (note the leading space in
the source's format string) and add its `lib` directory. -/
def add_linuxbrew_flags (env : BuildEnv) (st : BState) : BState :=
  if env.using_linuxbrew then
    let lib_dir := pjoin env.linuxbrew_dir "lib"
    let st := addLdFlags st [" -Wl,-dynamic-linker=" ++ pjoin lib_dir "ld.so"]
    add_lib_dir_and_rpath st lib_dir
  else st

/-- The Python `set([BUILD_TYPE_COMMON, self.build_type])` of line 322; set
iteration order is modelled as registration order (`common` first). -/
def include_dir_components (bt : BuildType) : List BuildType :=
  if bt = BuildType.common then [BuildType.common] else [BuildType.common, bt]

/-- Loop body of lines 322-326: per installed-tree component, add its
`include` dir as an include path and its `lib` dir as a lib dir plus rpath. -/
def add_install_include_and_lib (env : BuildEnv) (st : BState) (c : BuildType) : BState :=
  let st := add_include_path st (pjoin (pjoin env.tp_installed_dir c.dirName) "include")
  add_lib_dir_and_rpath st (pjoin (pjoin env.tp_installed_dir c.dirName) "lib")

/-- Lines 352-361 of `init_compiler_independent_flags`: the C++ standard and
RTTI flags, then the ASAN/TSAN sanitizer flag blocks (these run after the
OS-specific branch and are skipped entirely when the platform is
unsupported, because `fatal` aborts first). -/
def finish_compiler_independent_flags (st : BState) : BState :=
  let st := addCxxFlags st ["-std=c++14"]
  let st := addCxxFlags st ["-frtti"]
  let st := if st.build_type = BuildType.asan then addCompilerFlags st ASAN_FLAGS else st
  if st.build_type = BuildType.tsan then addCompilerFlags st TSAN_FLAGS else st

/-- `init_compiler_independent_flags` (lines 307-361): resets all seven flag
sequences to empty, re-adds Linuxbrew flags, installed-tree include/lib
paths (the include paths get appended to the compiler flags twice: once via
`add_include_path` and once via the `compiler_flags += preprocessor_flags`
of line 328 — the model reproduces this), the baseline compiler flags, the
OS-specific flags (placeholder rpath and `so` suffix on Linux; libc++,
minimum OS version and `dylib` suffix on macOS; `fatal` elsewhere), and the
standard/sanitizer flags. -/
def init_compiler_independent_flags (env : BuildEnv) (st : BState) (dep : Dependency) :
    BState × Option BuildError :=
  let st := { st with flags := FlagState.empty }
  let st := add_linuxbrew_flags env st
  let st := (include_dir_components st.build_type).foldl (add_install_include_and_lib env) st
  let st := addCompilerFlags st st.flags.preprocessor_flags
  let st := addCompilerFlags st ["-fno-omit-frame-pointer", "-fPIC", "-O2", "-Wall"]
  match env.os with
  | OSFamily.linux =>
      let st := add_rpath st PLACEHOLDER_RPATH
      let st := { st with dylib_suffix := "so" }
      (finish_compiler_independent_flags st, none)
  | OSFamily.macos =>
      let st := { st with dylib_suffix := "dylib" }
      let st := addCxxFlags st ["-stdlib=libc++"]
      let st := addLdFlags st ["-lc++", "-lc++abi"]
      let st := addCompilerFlags st ["-mmacosx-version-min=10.14"]
      let st := addLdFlags st ["-Wl,-headerpad_max_install_names"]
      (finish_compiler_independent_flags st, none)
  | OSFamily.other => (st, some BuildError.unsupportedPlatform)

/-- `get_libcxx_dirs` (lines 605-610): include and lib directories of the
libc++ installed under the given build-type component. -/
def get_libcxx_dirs (env : BuildEnv) (libcxx_installed_suffix : BuildType) : String × String :=
  let libcxx_installed_path :=
    pjoin (pjoin env.tp_installed_dir libcxx_installed_suffix.dirName) "libcxx"
  (pjoin (pjoin (pjoin libcxx_installed_path "include") "c++") "v1",
   pjoin libcxx_installed_path "lib")

/-- `init_linux_clang7_flags` (lines 612-645), the legacy Clang path: for
TSAN, link the TSAN runtime statically into executables only; force the
bundled libc++ via front-inserted flags (the five `insert` calls of lines
629-635 produce exactly this prefix order) and a front-inserted lib dir and
rpath; Linuxbrew GCC toolchain flag; `-lgcc_s` for the standalone llvm7
toolchain. -/
def init_linux_clang7_flags (env : BuildEnv) (st : BState) (dep : Dependency) : BState :=
  let st :=
    if st.build_type = BuildType.tsan then addExeLdFlags st ["-fsanitize=thread"] else st
  let stdlib_path := pjoin (pjoin env.tp_installed_dir st.build_type.dirName) "libcxx"
  let stdlib_include := pjoin (pjoin (pjoin stdlib_path "include") "c++") "v1"
  let stdlib_lib := pjoin stdlib_path "lib"
  let st := { st with flags := { st.flags with cxx_flags :=
      "-Wno-error=unused-command-line-argument" :: "-stdlib=libc++" :: "-isystem" ::
        stdlib_include :: "-nostdinc++" :: st.flags.cxx_flags } }
  let st := prepend_lib_dir_and_rpath st stdlib_lib
  let st :=
    if env.using_linuxbrew then
      addCompilerFlags st ["--gcc-toolchain=" ++ env.linuxbrew_dir]
    else st
  if env.toolchain_type = some "llvm7" then addLdFlags st ["-lgcc_s"] else st

/-- Python `str.endswith`, modelled over the underlying character list (the
`name.endswith(...)` checks of `init_linux_clang1x_flags`). -/
def str_ends_with (s suffix : String) : Bool :=
  suffix.data.isSuffixOf s.data

/-- The ASAN block of `init_linux_clang1x_flags` (lines 664-681): add
`-shared-libasan`; for a dependency whose name ends in `_libcxxabi` only,
add `-fno-sanitize=vptr`; assert a C compiler is configured; add the
compiler-rt library dir and rpath; probe for the UBSAN minimal runtime
shared library and fail with `IOError` if it is absent, else link it. -/
def clang1x_asan_step (env : BuildEnv) (st : BState) (is_libcxxabi : Bool) :
    BState × Option BuildError :=
  let st := addCompilerFlags st ["-shared-libasan"]
  let st := if is_libcxxabi then addCompilerFlags st ["-fno-sanitize=vptr"] else st
  match env.cc with
  | none => (st, some BuildError.ccIsNone)
  | some _ =>
      let compiler_rt_lib_dir := env.clang_library_dir
      let st := add_lib_dir_and_rpath st compiler_rt_lib_dir
      let ubsan_lib_name := "clang_rt.ubsan_minimal-" ++ env.processor
      let ubsan_lib_so_path :=
        pjoin compiler_rt_lib_dir ("lib" ++ ubsan_lib_name ++ ".so")
      if env.path_exists ubsan_lib_so_path then
        (addLdFlags st ["-l" ++ ubsan_lib_name], none)
      else (st, some (BuildError.ubsanLibNotFound ubsan_lib_so_path))

/-- `init_linux_clang1x_flags` (lines 647-720), the modern Clang path
(LLVM 10+): always `-rtlib=compiler-rt`; nothing further for the `COMMON`
build type; the ASAN block (`clang1x_asan_step`); `-lunwind`; for
dependencies other than libc++/libc++abi, the front-inserted libc++ flags
and a front-inserted lib dir and rpath; for libc++ itself, an existence
assertion on the libc++abi headers plus explicit `-I`/`-L`; for both
members of the libc++ pair, an extra rpath; a final warning-suppression
flag. -/
def init_linux_clang1x_flags (env : BuildEnv) (st : BState) (dep : Dependency) :
    BState × Option BuildError :=
  let st := addLdFlags st ["-rtlib=compiler-rt"]
  if st.build_type = BuildType.common then (st, none)
  else
    let is_libcxxabi := str_ends_with dep.name "_libcxxabi"
    let is_libcxx := str_ends_with dep.name "_libcxx"
    let step :=
      if st.build_type = BuildType.asan then clang1x_asan_step env st is_libcxxabi
      else (st, none)
    match step with
    | (st, some e) => (st, some e)
    | (st, none) =>
      let st := addLdFlags st ["-lunwind"]
      let dirs := get_libcxx_dirs env st.build_type
      let libcxx_installed_include := dirs.1
      let libcxx_installed_lib := dirs.2
      let st :=
        if !is_libcxx && !is_libcxxabi then
          let st := addLdFlags st ["-lc++", "-lc++abi"]
          let st := { st with flags := { st.flags with cxx_flags :=
              ["-stdlib=libc++", "-isystem", libcxx_installed_include,
               "-nostdinc++"] ++ st.flags.cxx_flags } }
          prepend_lib_dir_and_rpath st libcxx_installed_lib
        else st
      if is_libcxx && !(env.path_exists libcxx_installed_include) then
        (st, some (BuildError.libcxxIncludeDirMissing libcxx_installed_include))
      else
        let st :=
          if is_libcxx then
            let st := addCxxFlags st ["-I" ++ libcxx_installed_include]
            addLdFlags st ["-L" ++ libcxx_installed_lib]
          else st
        let st := if is_libcxx || is_libcxxabi then add_rpath st libcxx_installed_lib else st
        (addCxxFlags st ["-Wno-error=unused-command-line-argument"], none)

/-- The `llvm_major_version is not None and llvm_major_version >= 10` test of
`init_flags` (line 594). -/
def llvm_version_at_least (v : Option Nat) (n : Nat) : Bool :=
  match v with
  | some m => n ≤ m
  | none => false

/-- `init_flags` (lines 582-603): compiler-independent flags, then the
Clang-on-Linux special setup, selecting the modern (`clang1x`) path when
`--single-compiler-type=clang` and the LLVM major version is at least 10,
the legacy (`clang7`) path when the LLVM major version is 7 or no single
compiler type is set, and raising `ValueError` otherwise. -/
def init_flags (env : BuildEnv) (st : BState) (dep : Dependency) :
    BState × Option BuildError :=
  match init_compiler_independent_flags env st dep with
  | (st, some e) => (st, some e)
  | (st, none) =>
    if env.os ≠ OSFamily.macos ∧ env.building_with_clang st.build_type then
      if env.single_compiler_type = some CompilerType.clang ∧
          llvm_version_at_least env.llvm_major_version 10 then
        init_linux_clang1x_flags env st dep
      else if env.llvm_major_version = some 7 ∨ env.single_compiler_type = none then
        (init_linux_clang7_flags env st dep, none)
      else (st, some (BuildError.unsupportedLLVMVersion env.llvm_major_version))
    else (st, none)

/-! ### Fingerprint stamps and the rebuild decision (`builder.py` lines 850-925) -/

/-- Read the stamp stored for a (dependency name, build type) key (the
contents of the stamp file, `none` when the file does not exist).  The store
is newest-entry-first, so `find?` returns the latest write. -/
def lookupStamp (stamps : List ((String × BuildType) × String))
    (k : String × BuildType) : Option String :=
  (stamps.find? (fun e => decide (e.1 = k))).map (·.2)

/-- Overwrite the stamp file for a key (newest entry shadows older ones). -/
def writeStamp (stamps : List ((String × BuildType) × String))
    (k : String × BuildType) (v : String) : List ((String × BuildType) × String) :=
  (k, v) :: stamps

/-- `should_rebuild_dependency` (lines 854-879): read the old stamp (if the
stamp file exists), compute the new stamp; if the dependency declares a
source directory (`dir_name is not None`) and that directory does not
exist, rebuild; otherwise rebuild exactly when the old stamp differs from
the new stamp (an absent stamp always differs). -/
def should_rebuild_dependency (env : BuildEnv) (st : BState) (dep : Dependency) : Bool :=
  let old_build_stamp := lookupStamp st.stamps (dep.name, st.build_type)
  let new_build_stamp := env.fingerprint dep.name
  if dep.dir_name.isSome && !(env.src_dirs_present.contains dep.name) then
    true
  else if old_build_stamp = some new_build_stamp then false
  else true

/-- `save_build_stamp_for_dependency` (lines 919-925): recompute the stamp
and overwrite the stamp file for (dependency, current build type). -/
def save_build_stamp_for_dependency (env : BuildEnv) (st : BState) (dep : Dependency) : BState :=
  { st with stamps :=
      writeStamp st.stamps (dep.name, st.build_type) (env.fingerprint dep.name) }

/-! ### Build execution (`builder.py` lines 763-848) -/

/-- `perform_pre_build_steps` (lines 763-787): announce the step, invoke the
download/verification collaborator (its failure aborts the run), and append
a record to the license-manifest accumulator when the dependency has an
archive. -/
def perform_pre_build_steps (env : BuildEnv) (st : BState) (dep : Dependency) : RunResult :=
  let ev := [Event.preBuild dep st.build_type]
  if dep.download_ok then
    let st :=
      match dep.archive_name with
      | some _ =>
        { st with fossa_modules := st.fossa_modules ++ [dep.name ++ "-" ++ dep.version] }
      | none => st
    ⟨st, ev, none⟩
  else ⟨st, ev, some (BuildError.downloadFailed dep.name)⟩

/-- `build_dependency` (lines 789-848): initialize flags; always add the
rpath of the current build type's installed `lib` dir, plus the `COMMON`
one for non-`COMMON` build types; return early (flag side effects only)
when `only_process_flags` or `--download-extract-only`; otherwise prepare
the build directory (`create_build_dir_and_prepare` is `fatal` when the
source directory is missing), run the dependency's own build operation
(whose failure propagates), and only then save the build stamp. -/
def build_dependency (env : BuildEnv) (args : Args) (st : BState) (dep : Dependency)
    (only_process_flags : Bool) : RunResult :=
  let ev := [Event.buildDep dep st.build_type only_process_flags]
  match init_flags env st dep with
  | (st, some e) => ⟨st, ev, some e⟩
  | (st, none) =>
    let st := add_rpath st
      (pjoin (pjoin env.tp_installed_dir st.build_type.dirName) "lib")
    let st :=
      if st.build_type ≠ BuildType.common then
        add_rpath st (pjoin (pjoin env.tp_installed_dir BuildType.common.dirName) "lib")
      else st
    if only_process_flags then ⟨st, ev, none⟩
    else if args.download_extract_only then ⟨st, ev, none⟩
    else if !(env.src_dirs_present.contains dep.name) then
      ⟨st, ev, some (BuildError.srcDirMissing dep.name)⟩
    else if !dep.build_ok then ⟨st, ev, some (BuildError.depBuildFailed dep.name)⟩
    else ⟨save_build_stamp_for_dependency env st dep, ev, none⟩

/-- One iteration of the dependency loop of `build_one_build_type` (lines
547-558): pre-build steps, then either a real build (when the dependency
wants to be built and the stamp says it changed) or a flags-only pass
followed by the "Skipped dependency" log line. -/
def process_dependency (env : BuildEnv) (args : Args) (st : BState) (dep : Dependency) :
    RunResult :=
  let pre := perform_pre_build_steps env st dep
  match pre.error with
  | some e => ⟨pre.state, pre.events, some e⟩
  | none =>
    let sb := dep.should_build
    let sr := should_rebuild_dependency env pre.state dep
    if sb && sr then
      let r := build_dependency env args pre.state dep false
      ⟨r.state, pre.events ++ r.events, r.error⟩
    else
      let r := build_dependency env args pre.state dep true
      match r.error with
      | some e => ⟨r.state, pre.events ++ r.events, some e⟩
      | none => ⟨r.state, pre.events ++ r.events ++ [Event.logSkippedDep dep sb sr], none⟩

/-- The `for dep in self.selected_dependencies` loop of
`build_one_build_type` (lines 547-558): dependencies whose build group does
not match the configuration's build group are not touched at all; an error
aborts the loop (the exception propagates). -/
def build_deps_loop (env : BuildEnv) (args : Args) (build_group : BuildGroup) :
    BState → List Dependency → RunResult
  | st, [] => ⟨st, [], none⟩
  | st, dep :: rest =>
    if build_group = dep.build_group then
      let r := process_dependency env args st dep
      match r.error with
      | some e => ⟨r.state, r.events, some e⟩
      | none =>
        let r2 := build_deps_loop env args build_group r.state rest
        ⟨r2.state, r.events ++ r2.events, r2.error⟩
    else build_deps_loop env args build_group st rest

/-- The argument-based skip test of `build_one_build_type` (lines 535-537):
`build_type != BUILD_TYPE_COMMON and self.args.build_type is not None and
build_type != self.args.build_type`. -/
def build_type_arg_skipped (args : Args) (bt : BuildType) : Bool :=
  bt != BuildType.common && args.build_type.isSome && args.build_type != some bt

/-- `set_build_type` (lines 565-580): record the current build type (the
compiler re-selection and logging have no further effect on the modelled
state). -/
def set_build_type (st : BState) (bt : BuildType) : BState :=
  { st with build_type := bt }

/-- `build_one_build_type` (lines 534-558): a non-`COMMON` build type other
than the one requested via `--build-type` is skipped with a log line;
otherwise set the build type, compute the matching build group and run the
dependency loop. -/
def build_one_build_type (env : BuildEnv) (args : Args) (selected : List Dependency)
    (st : BState) (bt : BuildType) : RunResult :=
  if build_type_arg_skipped args bt then
    ⟨st, [Event.logSkipBuildType bt (args.build_type.getD bt)], none⟩
  else
    let st := set_build_type st bt
    let build_group := build_group_for_build_type bt
    let r := build_deps_loop env args build_group st selected
    ⟨r.state, Event.setBuildType bt :: r.events, r.error⟩

/-- The instrumented build-type list constructed by `run` (lines 258-263):
`[UNINSTRUMENTED]`, extended with `ASAN` and `TSAN` exactly when the
platform is Linux, only Clang is in use, and `--skip-sanitizers` was not
given. -/
def run_instrumented_build_types (env : BuildEnv) (args : Args) : List BuildType :=
  [BuildType.uninstrumented] ++
    (if env.os = OSFamily.linux ∧ env.use_only_clang ∧ ¬args.skip_sanitizers then
      [BuildType.asan, BuildType.tsan]
    else [])

/-- The full sequence of `build_one_build_type` calls made by `run`:
`COMMON` first (line 257), then the instrumented list (lines 266-267). -/
def run_build_type_calls (env : BuildEnv) (args : Args) : List BuildType :=
  BuildType.common :: run_instrumented_build_types env args

/-- The `for build_type in build_types` loop of `run` (lines 266-267); an
exception from any build type aborts the loop. -/
def run_build_types_loop (env : BuildEnv) (args : Args) (selected : List Dependency) :
    BState → List BuildType → RunResult
  | st, [] => ⟨st, [], none⟩
  | st, bt :: rest =>
    let r := build_one_build_type env args selected st bt
    match r.error with
    | some e => ⟨r.state, r.events, some e⟩
    | none =>
      let r2 := run_build_types_loop env args selected r.state rest
      ⟨r2.state, r.events ++ r2.events, r2.error⟩

/-- `run` (lines 245-271), restricted to its scheduling core: build the
`COMMON` configuration, log the full instrumented build-type list, then
build each instrumented configuration in order. -/
def run (env : BuildEnv) (args : Args) (selected : List Dependency) (st : BState) :
    RunResult :=
  let r0 := build_one_build_type env args selected st BuildType.common
  match r0.error with
  | some e => ⟨r0.state, r0.events, some e⟩
  | none =>
    let build_types := run_instrumented_build_types env args
    let r1 := run_build_types_loop env args selected r0.state build_types
    ⟨r1.state, r0.events ++ [Event.logFullBuildTypeList build_types] ++ r1.events, r1.error⟩

/-! ### Dependency selection (`builder.py` lines 219-243) -/

/-- Errors raised by `select_dependencies_to_build`; each constructor
carries exactly the name lists interpolated into the corresponding message.
`unknownDependencyName` is the `fatal("Unknown dependency name: %s. Valid
dependency names:\n%s", ...)` of lines 225-227, whose second argument is
the sorted full set of valid names; `unknownSkipped` is the
`ValueError("Unknown dependencies, cannot skip: %s" % sorted(skipped))` of
line 241, whose argument is the sorted set of skip names that matched no
dependency. -/
inductive SelectError
  | unknownDependencyName (name : String) (validNames : List String)
  | unknownSkipped (names : List String)
  deriving DecidableEq, Repr

/-- The names interpolated into the error's message. -/
def SelectError.listedNames : SelectError → List String
  | .unknownDependencyName _ validNames => validNames
  | .unknownSkipped names => names

/-- Lexicographic comparison of character lists by code point (the order
Python's `sorted` uses on strings). -/
def charsLe : List Char → List Char → Bool
  | [], _ => true
  | _ :: _, [] => false
  | a :: as, b :: bs =>
    if a.val.toNat < b.val.toNat then true
    else if b.val.toNat < a.val.toNat then false
    else charsLe as bs

/-- Lexicographic string comparison by code point. -/
def strLe (a b : String) : Bool := charsLe a.data b.data

/-- Insertion of a string into a sorted list (helper for `sortStrings`). -/
def insertSorted (x : String) : List String → List String
  | [] => [x]
  | y :: ys => if strLe x y then x :: y :: ys else y :: insertSorted x ys

/-- Insertion sort on strings (Python `sorted` on a list of names). -/
def sortStrings (l : List String) : List String :=
  l.foldr insertSorted []

/-- Sorted list of a Python set of strings (`sorted(set_of_names)`). -/
def sortedNames (l : List String) : List String :=
  sortStrings l.dedup

/-- Removal step of the skip loop (lines 235-239): a dependency whose name
is in the remaining skip set consumes its entry, any other dependency is
selected. -/
def skip_select_step (acc : List String × List Dependency) (dep : Dependency) :
    List String × List Dependency :=
  if dep.name ∈ acc.1 then (acc.1.filter (fun n => n ≠ dep.name), acc.2)
  else (acc.1, acc.2 ++ [dep])

/-- `select_dependencies_to_build` (lines 219-243): with an explicit include
list, fail on the first name that matches no dependency (listing the sorted
valid names), else select the matching dependencies in catalog order; with
a skip list, drop the skipped dependencies and fail if any skip name
matched nothing (listing those names); with neither, select everything. -/
def select_dependencies_to_build (args : Args) (dependencies : List Dependency) :
    Except SelectError (List Dependency) :=
  if args.dependencies ≠ [] then
    let names := dependencies.map (·.name)
    match args.dependencies.find? (fun d => !(names.contains d)) with
    | some bad => .error (.unknownDependencyName bad (sortedNames names))
    | none => .ok (dependencies.filter (fun dep => args.dependencies.contains dep.name))
  else
    match args.skip with
    | some skip_list =>
      let skipped := skip_list.dedup
      let result := dependencies.foldl skip_select_step (skipped, [])
      if result.1 ≠ [] then .error (.unknownSkipped (sortedNames result.1))
      else .ok result.2
    | none => .ok dependencies

/-! ### Trace observations -/

/-- The build type a scheduler-level event names, for events that mark a
`build_one_build_type` call (either its skip log line or the start of its
processing). -/
def Event.visitedOf : Event → Option BuildType
  | .setBuildType bt => some bt
  | .logSkipBuildType bt _ => some bt
  | _ => none

/-- The build type of an event marking actually-started processing of a
configuration. -/
def Event.executedOf : Event → Option BuildType
  | .setBuildType bt => some bt
  | _ => none

/-- The sequence of build configurations a trace visited (skipped or
executed), in order. -/
def visitedCalls (evs : List Event) : List BuildType := evs.filterMap Event.visitedOf

/-- The sequence of build configurations a trace actually started
processing, in order. -/
def executedBuildTypes (evs : List Event) : List BuildType := evs.filterMap Event.executedOf

/-- Whether an event names the given build type anywhere in its log
line or call arguments. -/
def Event.mentionsBuildType : Event → BuildType → Bool
  | .logSkipBuildType s r, bt => s == bt || r == bt
  | .setBuildType b, bt => b == bt
  | .logFullBuildTypeList l, bt => l.contains bt
  | .preBuild _ b, bt => b == bt
  | .buildDep _ b _, bt => b == bt
  | .logSkippedDep _ _ _, _ => false

/-- Dependency-level events: the events `process_dependency` can emit for a
given dependency under a given build type. -/
def aboutDep (dep : Dependency) (bt : BuildType) (e : Event) : Prop :=
  e = Event.preBuild dep bt ∨ (∃ opf, e = Event.buildDep dep bt opf) ∨
    ∃ a b, e = Event.logSkippedDep dep a b

theorem aboutDep_visitedOf {dep bt e} (h : aboutDep dep bt e) : e.visitedOf = none := by
  rcases h with h | ⟨opf, h⟩ | ⟨a, b, h⟩ <;> subst h <;> rfl

theorem aboutDep_executedOf {dep bt e} (h : aboutDep dep bt e) : e.executedOf = none := by
  rcases h with h | ⟨opf, h⟩ | ⟨a, b, h⟩ <;> subst h <;> rfl

/-! ### Projection lemmas for the primitive operations -/

@[simp] theorem add_include_path_build_type (st : BState) (p : String) :
    (add_include_path st p).build_type = st.build_type := rfl

@[simp] theorem add_include_path_stamps (st : BState) (p : String) :
    (add_include_path st p).stamps = st.stamps := rfl

@[simp] theorem add_include_path_paths (st : BState) (p : String) :
    (add_include_path st p).additional_allowed_shared_lib_paths =
      st.additional_allowed_shared_lib_paths := rfl

@[simp] theorem add_rpath_build_type (st : BState) (p : String) :
    (add_rpath st p).build_type = st.build_type := rfl

@[simp] theorem add_rpath_stamps (st : BState) (p : String) :
    (add_rpath st p).stamps = st.stamps := rfl

@[simp] theorem add_rpath_paths (st : BState) (p : String) :
    (add_rpath st p).additional_allowed_shared_lib_paths =
      insertPath st.additional_allowed_shared_lib_paths p := rfl

@[simp] theorem add_rpath_compiler_flags (st : BState) (p : String) :
    (add_rpath st p).flags.compiler_flags = st.flags.compiler_flags := rfl

@[simp] theorem prepend_rpath_build_type (st : BState) (p : String) :
    (prepend_rpath st p).build_type = st.build_type := rfl

@[simp] theorem prepend_rpath_stamps (st : BState) (p : String) :
    (prepend_rpath st p).stamps = st.stamps := rfl

@[simp] theorem prepend_rpath_paths (st : BState) (p : String) :
    (prepend_rpath st p).additional_allowed_shared_lib_paths =
      insertPath st.additional_allowed_shared_lib_paths p := rfl

@[simp] theorem add_lib_dir_and_rpath_build_type (st : BState) (p : String) :
    (add_lib_dir_and_rpath st p).build_type = st.build_type := rfl

@[simp] theorem add_lib_dir_and_rpath_stamps (st : BState) (p : String) :
    (add_lib_dir_and_rpath st p).stamps = st.stamps := rfl

@[simp] theorem add_lib_dir_and_rpath_paths (st : BState) (p : String) :
    (add_lib_dir_and_rpath st p).additional_allowed_shared_lib_paths =
      insertPath st.additional_allowed_shared_lib_paths p := rfl

@[simp] theorem add_lib_dir_and_rpath_compiler_flags (st : BState) (p : String) :
    (add_lib_dir_and_rpath st p).flags.compiler_flags = st.flags.compiler_flags := rfl

@[simp] theorem prepend_lib_dir_and_rpath_build_type (st : BState) (p : String) :
    (prepend_lib_dir_and_rpath st p).build_type = st.build_type := rfl

@[simp] theorem prepend_lib_dir_and_rpath_stamps (st : BState) (p : String) :
    (prepend_lib_dir_and_rpath st p).stamps = st.stamps := rfl

@[simp] theorem prepend_lib_dir_and_rpath_paths (st : BState) (p : String) :
    (prepend_lib_dir_and_rpath st p).additional_allowed_shared_lib_paths =
      insertPath st.additional_allowed_shared_lib_paths p := rfl

@[simp] theorem prepend_lib_dir_and_rpath_compiler_flags (st : BState) (p : String) :
    (prepend_lib_dir_and_rpath st p).flags.compiler_flags = st.flags.compiler_flags := rfl

@[simp] theorem addCompilerFlags_build_type (st : BState) (fs : List String) :
    (addCompilerFlags st fs).build_type = st.build_type := rfl

@[simp] theorem addCompilerFlags_stamps (st : BState) (fs : List String) :
    (addCompilerFlags st fs).stamps = st.stamps := rfl

@[simp] theorem addCompilerFlags_paths (st : BState) (fs : List String) :
    (addCompilerFlags st fs).additional_allowed_shared_lib_paths =
      st.additional_allowed_shared_lib_paths := rfl

@[simp] theorem addCompilerFlags_compiler_flags (st : BState) (fs : List String) :
    (addCompilerFlags st fs).flags.compiler_flags = st.flags.compiler_flags ++ fs := rfl

@[simp] theorem addCxxFlags_build_type (st : BState) (fs : List String) :
    (addCxxFlags st fs).build_type = st.build_type := rfl

@[simp] theorem addCxxFlags_stamps (st : BState) (fs : List String) :
    (addCxxFlags st fs).stamps = st.stamps := rfl

@[simp] theorem addCxxFlags_paths (st : BState) (fs : List String) :
    (addCxxFlags st fs).additional_allowed_shared_lib_paths =
      st.additional_allowed_shared_lib_paths := rfl

@[simp] theorem addCxxFlags_compiler_flags (st : BState) (fs : List String) :
    (addCxxFlags st fs).flags.compiler_flags = st.flags.compiler_flags := rfl

@[simp] theorem addLdFlags_build_type (st : BState) (fs : List String) :
    (addLdFlags st fs).build_type = st.build_type := rfl

@[simp] theorem addLdFlags_stamps (st : BState) (fs : List String) :
    (addLdFlags st fs).stamps = st.stamps := rfl

@[simp] theorem addLdFlags_paths (st : BState) (fs : List String) :
    (addLdFlags st fs).additional_allowed_shared_lib_paths =
      st.additional_allowed_shared_lib_paths := rfl

@[simp] theorem addLdFlags_compiler_flags (st : BState) (fs : List String) :
    (addLdFlags st fs).flags.compiler_flags = st.flags.compiler_flags := rfl

@[simp] theorem addExeLdFlags_build_type (st : BState) (fs : List String) :
    (addExeLdFlags st fs).build_type = st.build_type := rfl

@[simp] theorem addExeLdFlags_stamps (st : BState) (fs : List String) :
    (addExeLdFlags st fs).stamps = st.stamps := rfl

@[simp] theorem addExeLdFlags_paths (st : BState) (fs : List String) :
    (addExeLdFlags st fs).additional_allowed_shared_lib_paths =
      st.additional_allowed_shared_lib_paths := rfl

@[simp] theorem addExeLdFlags_compiler_flags (st : BState) (fs : List String) :
    (addExeLdFlags st fs).flags.compiler_flags = st.flags.compiler_flags := rfl

@[simp] theorem set_build_type_build_type (st : BState) (bt : BuildType) :
    (set_build_type st bt).build_type = bt := rfl

@[simp] theorem save_build_stamp_build_type (env : BuildEnv) (st : BState) (dep : Dependency) :
    (save_build_stamp_for_dependency env st dep).build_type = st.build_type := rfl

@[simp] theorem save_build_stamp_paths (env : BuildEnv) (st : BState) (dep : Dependency) :
    (save_build_stamp_for_dependency env st dep).additional_allowed_shared_lib_paths =
      st.additional_allowed_shared_lib_paths := rfl

/-! ### Basic facts about the allowed-path set -/

theorem subset_insertPath (l : List String) (p : String) : l ⊆ insertPath l p := by
  unfold insertPath
  split
  · exact fun x hx => hx
  · exact fun x hx => List.mem_append_left _ hx

theorem mem_insertPath_self (l : List String) (p : String) : p ∈ insertPath l p := by
  unfold insertPath
  split
  · assumption
  · exact List.mem_append_right _ (List.mem_singleton.mpr rfl)

theorem mem_insertPath_of_mem {l : List String} {x : String} (p : String) (h : x ∈ l) :
    x ∈ insertPath l p := subset_insertPath l p h

/-! ### Preservation lemmas for the composite flag initializers -/

theorem add_linuxbrew_flags_build_type (env : BuildEnv) (st : BState) :
    (add_linuxbrew_flags env st).build_type = st.build_type := by
  unfold add_linuxbrew_flags; split <;> simp

theorem add_linuxbrew_flags_stamps (env : BuildEnv) (st : BState) :
    (add_linuxbrew_flags env st).stamps = st.stamps := by
  unfold add_linuxbrew_flags; split <;> simp

theorem add_linuxbrew_flags_paths (env : BuildEnv) (st : BState) :
    st.additional_allowed_shared_lib_paths ⊆
      (add_linuxbrew_flags env st).additional_allowed_shared_lib_paths := by
  unfold add_linuxbrew_flags
  split
  · simp only [add_lib_dir_and_rpath_paths, addLdFlags_paths]
    exact subset_insertPath _ _
  · exact fun x hx => hx

theorem add_install_include_and_lib_build_type (env : BuildEnv) (st : BState) (c : BuildType) :
    (add_install_include_and_lib env st c).build_type = st.build_type := by
  unfold add_install_include_and_lib; simp

theorem add_install_include_and_lib_stamps (env : BuildEnv) (st : BState) (c : BuildType) :
    (add_install_include_and_lib env st c).stamps = st.stamps := by
  unfold add_install_include_and_lib; simp

theorem add_install_include_and_lib_paths (env : BuildEnv) (st : BState) (c : BuildType) :
    st.additional_allowed_shared_lib_paths ⊆
      (add_install_include_and_lib env st c).additional_allowed_shared_lib_paths := by
  unfold add_install_include_and_lib
  simp only [add_lib_dir_and_rpath_paths, add_include_path_paths]
  exact subset_insertPath _ _

theorem foldl_install_build_type (env : BuildEnv) (l : List BuildType) (st : BState) :
    (l.foldl (add_install_include_and_lib env) st).build_type = st.build_type := by
  induction l generalizing st with
  | nil => rfl
  | cons c rest ih =>
    simp only [List.foldl_cons]
    rw [ih, add_install_include_and_lib_build_type]

theorem foldl_install_stamps (env : BuildEnv) (l : List BuildType) (st : BState) :
    (l.foldl (add_install_include_and_lib env) st).stamps = st.stamps := by
  induction l generalizing st with
  | nil => rfl
  | cons c rest ih =>
    simp only [List.foldl_cons]
    rw [ih, add_install_include_and_lib_stamps]

theorem foldl_install_paths (env : BuildEnv) (l : List BuildType) (st : BState) :
    st.additional_allowed_shared_lib_paths ⊆
      (l.foldl (add_install_include_and_lib env) st).additional_allowed_shared_lib_paths := by
  induction l generalizing st with
  | nil => exact fun x hx => hx
  | cons c rest ih =>
    simp only [List.foldl_cons]
    exact List.Subset.trans (add_install_include_and_lib_paths env st c) (ih _)

theorem finish_cif_build_type (st : BState) :
    (finish_compiler_independent_flags st).build_type = st.build_type := by
  unfold finish_compiler_independent_flags
  dsimp only
  split <;> split <;> simp

theorem finish_cif_stamps (st : BState) :
    (finish_compiler_independent_flags st).stamps = st.stamps := by
  unfold finish_compiler_independent_flags
  dsimp only
  split <;> split <;> simp

theorem finish_cif_paths (st : BState) :
    (finish_compiler_independent_flags st).additional_allowed_shared_lib_paths =
      st.additional_allowed_shared_lib_paths := by
  unfold finish_compiler_independent_flags
  dsimp only
  split <;> split <;> simp

theorem init_cif_build_type (env : BuildEnv) (st : BState) (dep : Dependency) :
    (init_compiler_independent_flags env st dep).1.build_type = st.build_type := by
  unfold init_compiler_independent_flags
  cases h : env.os <;>
    simp [finish_cif_build_type, foldl_install_build_type, add_linuxbrew_flags_build_type]

theorem init_cif_stamps (env : BuildEnv) (st : BState) (dep : Dependency) :
    (init_compiler_independent_flags env st dep).1.stamps = st.stamps := by
  unfold init_compiler_independent_flags
  cases h : env.os <;>
    simp [finish_cif_stamps, foldl_install_stamps, add_linuxbrew_flags_stamps]

theorem init_cif_paths (env : BuildEnv) (st : BState) (dep : Dependency) :
    st.additional_allowed_shared_lib_paths ⊆
      (init_compiler_independent_flags env st dep).1.additional_allowed_shared_lib_paths := by
  unfold init_compiler_independent_flags
  have base : st.additional_allowed_shared_lib_paths ⊆
      (add_linuxbrew_flags env { st with flags := FlagState.empty
        }).additional_allowed_shared_lib_paths :=
    add_linuxbrew_flags_paths env { st with flags := FlagState.empty }
  cases h : env.os <;>
    · simp only [finish_cif_paths, add_rpath_paths]
      first
      | exact List.Subset.trans base
          (List.Subset.trans (foldl_install_paths env _ _) (subset_insertPath _ _))
      | exact List.Subset.trans base (foldl_install_paths env _ _)

theorem clang7_build_type (env : BuildEnv) (st : BState) (dep : Dependency) :
    (init_linux_clang7_flags env st dep).build_type = st.build_type := by
  unfold init_linux_clang7_flags
  dsimp only
  split <;> split <;> split <;> simp

theorem clang7_stamps (env : BuildEnv) (st : BState) (dep : Dependency) :
    (init_linux_clang7_flags env st dep).stamps = st.stamps := by
  unfold init_linux_clang7_flags
  dsimp only
  split <;> split <;> split <;> simp

theorem clang7_paths (env : BuildEnv) (st : BState) (dep : Dependency) :
    st.additional_allowed_shared_lib_paths ⊆
      (init_linux_clang7_flags env st dep).additional_allowed_shared_lib_paths := by
  unfold init_linux_clang7_flags
  dsimp only
  split <;> split <;> split <;>
    · simp only [addLdFlags_paths, addCompilerFlags_paths, prepend_lib_dir_and_rpath_paths,
        addExeLdFlags_paths]
      exact subset_insertPath _ _

theorem clang1x_asan_step_build_type (env : BuildEnv) (st : BState) (abi : Bool) :
    (clang1x_asan_step env st abi).1.build_type = st.build_type := by
  unfold clang1x_asan_step
  cases env.cc <;> cases abi <;> dsimp only <;> (try split) <;> simp

theorem clang1x_asan_step_stamps (env : BuildEnv) (st : BState) (abi : Bool) :
    (clang1x_asan_step env st abi).1.stamps = st.stamps := by
  unfold clang1x_asan_step
  cases env.cc <;> cases abi <;> dsimp only <;> (try split) <;> simp

theorem clang1x_asan_step_paths (env : BuildEnv) (st : BState) (abi : Bool) :
    st.additional_allowed_shared_lib_paths ⊆
      (clang1x_asan_step env st abi).1.additional_allowed_shared_lib_paths := by
  unfold clang1x_asan_step
  cases env.cc <;> cases abi <;> dsimp only <;> (try split) <;>
    · simp only [addLdFlags_paths, addCompilerFlags_paths, add_lib_dir_and_rpath_paths]
      first
      | exact subset_insertPath _ _
      | exact fun x hx => hx

theorem clang1x_asan_step_compiler_flags (env : BuildEnv) (st : BState) (abi : Bool) :
    (clang1x_asan_step env st abi).1.flags.compiler_flags =
      st.flags.compiler_flags ++ ["-shared-libasan"] ++
        (if abi then ["-fno-sanitize=vptr"] else []) := by
  unfold clang1x_asan_step
  cases env.cc <;> cases abi <;> dsimp only <;> (try split) <;> simp

theorem clang1x_build_type (env : BuildEnv) (st : BState) (dep : Dependency) :
    (init_linux_clang1x_flags env st dep).1.build_type = st.build_type := by
  unfold init_linux_clang1x_flags
  dsimp only
  split
  · simp
  · split
    case h_1 s e heq =>
      split at heq
      · have h := clang1x_asan_step_build_type env (addLdFlags st ["-rtlib=compiler-rt"])
          (str_ends_with dep.name "_libcxxabi")
        rw [heq] at h
        simpa using h
      · simp at heq
    case h_2 s heq =>
      have hs : s.build_type = st.build_type := by
        split at heq
        · have h := clang1x_asan_step_build_type env (addLdFlags st ["-rtlib=compiler-rt"])
            (str_ends_with dep.name "_libcxxabi")
          rw [heq] at h
          simpa using h
        · have h2 := congrArg Prod.fst heq
          dsimp at h2
          rw [← h2]
          simp
      split <;> (try split) <;> (try split) <;> (try split) <;> simp [hs]

theorem clang1x_stamps (env : BuildEnv) (st : BState) (dep : Dependency) :
    (init_linux_clang1x_flags env st dep).1.stamps = st.stamps := by
  unfold init_linux_clang1x_flags
  dsimp only
  split
  · simp
  · split
    case h_1 s e heq =>
      split at heq
      · have h := clang1x_asan_step_stamps env (addLdFlags st ["-rtlib=compiler-rt"])
          (str_ends_with dep.name "_libcxxabi")
        rw [heq] at h
        simpa using h
      · simp at heq
    case h_2 s heq =>
      have hs : s.stamps = st.stamps := by
        split at heq
        · have h := clang1x_asan_step_stamps env (addLdFlags st ["-rtlib=compiler-rt"])
            (str_ends_with dep.name "_libcxxabi")
          rw [heq] at h
          simpa using h
        · have h2 := congrArg Prod.fst heq
          dsimp at h2
          rw [← h2]
          simp
      split <;> (try split) <;> (try split) <;> (try split) <;> simp [hs]

theorem clang1x_paths (env : BuildEnv) (st : BState) (dep : Dependency) :
    st.additional_allowed_shared_lib_paths ⊆
      (init_linux_clang1x_flags env st dep).1.additional_allowed_shared_lib_paths := by
  unfold init_linux_clang1x_flags
  dsimp only
  split
  · simp only [addLdFlags_paths]
    exact fun x hx => hx
  · split
    case h_1 s e heq =>
      split at heq
      · have h := clang1x_asan_step_paths env (addLdFlags st ["-rtlib=compiler-rt"])
          (str_ends_with dep.name "_libcxxabi")
        rw [heq] at h
        simpa using h
      · simp at heq
    case h_2 s heq =>
      have hsp : st.additional_allowed_shared_lib_paths ⊆
          s.additional_allowed_shared_lib_paths := by
        split at heq
        · have h := clang1x_asan_step_paths env (addLdFlags st ["-rtlib=compiler-rt"])
            (str_ends_with dep.name "_libcxxabi")
          rw [heq] at h
          simpa using h
        · have h2 := congrArg Prod.fst heq
          dsimp at h2
          rw [← h2]
          simp only [addLdFlags_paths]
          exact fun x hx => hx
      split <;> (try split) <;> (try split) <;> (try split) <;>
        · simp only [addLdFlags_paths, addCxxFlags_paths, add_rpath_paths,
            prepend_lib_dir_and_rpath_paths]
          first
          | exact hsp
          | exact List.Subset.trans hsp (subset_insertPath _ _)
          | exact List.Subset.trans hsp
              (List.Subset.trans (subset_insertPath _ _) (subset_insertPath _ _))

theorem init_flags_build_type (env : BuildEnv) (st : BState) (dep : Dependency) :
    (init_flags env st dep).1.build_type = st.build_type := by
  unfold init_flags
  rcases hcif : init_compiler_independent_flags env st dep with ⟨s, e⟩
  have hs : s.build_type = st.build_type := by
    have h := init_cif_build_type env st dep
    rw [hcif] at h
    simpa using h
  cases e
  · dsimp only
    split
    · split
      · simp [clang1x_build_type, hs]
      · split
        · simp [clang7_build_type, hs]
        · simpa using hs
    · simpa using hs
  · simpa using hs

theorem init_flags_stamps (env : BuildEnv) (st : BState) (dep : Dependency) :
    (init_flags env st dep).1.stamps = st.stamps := by
  unfold init_flags
  rcases hcif : init_compiler_independent_flags env st dep with ⟨s, e⟩
  have hs : s.stamps = st.stamps := by
    have h := init_cif_stamps env st dep
    rw [hcif] at h
    simpa using h
  cases e
  · dsimp only
    split
    · split
      · simp [clang1x_stamps, hs]
      · split
        · simp [clang7_stamps, hs]
        · simpa using hs
    · simpa using hs
  · simpa using hs

theorem init_flags_paths (env : BuildEnv) (st : BState) (dep : Dependency) :
    st.additional_allowed_shared_lib_paths ⊆
      (init_flags env st dep).1.additional_allowed_shared_lib_paths := by
  unfold init_flags
  rcases hcif : init_compiler_independent_flags env st dep with ⟨s, e⟩
  have hsp : st.additional_allowed_shared_lib_paths ⊆
      s.additional_allowed_shared_lib_paths := by
    have h := init_cif_paths env st dep
    rw [hcif] at h
    simpa using h
  cases e
  · dsimp only
    split
    · split
      · exact List.Subset.trans hsp (clang1x_paths env s dep)
      · split
        · exact List.Subset.trans hsp (clang7_paths env s dep)
        · simpa using hsp
    · simpa using hsp
  · simpa using hsp

/-! ### Characterization lemmas for the executor -/

theorem pre_build_events (env : BuildEnv) (st : BState) (dep : Dependency) :
    (perform_pre_build_steps env st dep).events = [Event.preBuild dep st.build_type] := by
  unfold perform_pre_build_steps
  dsimp only
  split <;> (try split) <;> rfl

theorem pre_build_build_type (env : BuildEnv) (st : BState) (dep : Dependency) :
    (perform_pre_build_steps env st dep).state.build_type = st.build_type := by
  unfold perform_pre_build_steps
  dsimp only
  split <;> (try split) <;> rfl

theorem pre_build_stamps (env : BuildEnv) (st : BState) (dep : Dependency) :
    (perform_pre_build_steps env st dep).state.stamps = st.stamps := by
  unfold perform_pre_build_steps
  dsimp only
  split <;> (try split) <;> rfl

theorem pre_build_paths (env : BuildEnv) (st : BState) (dep : Dependency) :
    (perform_pre_build_steps env st dep).state.additional_allowed_shared_lib_paths =
      st.additional_allowed_shared_lib_paths := by
  unfold perform_pre_build_steps
  dsimp only
  split <;> (try split) <;> rfl

theorem pre_build_flags (env : BuildEnv) (st : BState) (dep : Dependency) :
    (perform_pre_build_steps env st dep).state.flags = st.flags := by
  unfold perform_pre_build_steps
  dsimp only
  split <;> (try split) <;> rfl

theorem build_dependency_events (env : BuildEnv) (args : Args) (st : BState)
    (dep : Dependency) (opf : Bool) :
    (build_dependency env args st dep opf).events =
      [Event.buildDep dep st.build_type opf] := by
  unfold build_dependency
  rcases hif : init_flags env st dep with ⟨s, e⟩
  cases e <;> dsimp only <;>
    (try split) <;> (try split) <;> (try split) <;> (try split) <;> (try split) <;> rfl

theorem build_dependency_build_type (env : BuildEnv) (args : Args) (st : BState)
    (dep : Dependency) (opf : Bool) :
    (build_dependency env args st dep opf).state.build_type = st.build_type := by
  unfold build_dependency
  rcases hif : init_flags env st dep with ⟨s, e⟩
  have hsbt : s.build_type = st.build_type := by
    have h := init_flags_build_type env st dep
    rw [hif] at h
    simpa using h
  cases e <;> dsimp only <;> repeat' split
  all_goals simp [save_build_stamp_for_dependency, hsbt]

theorem build_dependency_stamps_unchanged (env : BuildEnv) (args : Args) (st : BState)
    (dep : Dependency) (opf : Bool)
    (h : (build_dependency env args st dep opf).error.isSome ∨ opf = true ∨
      args.download_extract_only = true) :
    (build_dependency env args st dep opf).state.stamps = st.stamps := by
  unfold build_dependency at h ⊢
  rcases hif : init_flags env st dep with ⟨s, e⟩
  rw [hif] at h
  have hss : s.stamps = st.stamps := by
    have h2 := init_flags_stamps env st dep
    rw [hif] at h2
    simpa using h2
  cases e <;> dsimp only at h ⊢ <;> repeat' split
  all_goals repeat' split at h
  all_goals simp_all [save_build_stamp_for_dependency, hss]

theorem build_dependency_stamps_on_success (env : BuildEnv) (args : Args) (st : BState)
    (dep : Dependency)
    (h : (build_dependency env args st dep false).error = none)
    (hdlx : args.download_extract_only = false) :
    (build_dependency env args st dep false).state.stamps =
        writeStamp st.stamps (dep.name, st.build_type) (env.fingerprint dep.name) ∧
      dep.build_ok = true := by
  unfold build_dependency at h ⊢
  rcases hif : init_flags env st dep with ⟨s, e⟩
  rw [hif] at h
  have hss : s.stamps = st.stamps := by
    have h2 := init_flags_stamps env st dep
    rw [hif] at h2
    simpa using h2
  have hsbt : s.build_type = st.build_type := by
    have h2 := init_flags_build_type env st dep
    rw [hif] at h2
    simpa using h2
  cases e
  case some => simp at h
  case none =>
    dsimp only at h ⊢
    rw [hdlx] at h ⊢
    cases hcont : env.src_dirs_present.contains dep.name <;> rw [hcont] at h <;>
      cases hbo : dep.build_ok <;> rw [hbo] at h <;>
      repeat' split
    all_goals repeat' split at h
    all_goals simp_all [save_build_stamp_for_dependency, writeStamp, hss, hsbt]

theorem build_dependency_paths (env : BuildEnv) (args : Args) (st : BState)
    (dep : Dependency) (opf : Bool) :
    st.additional_allowed_shared_lib_paths ⊆
      (build_dependency env args st dep opf).state.additional_allowed_shared_lib_paths := by
  unfold build_dependency
  rcases hif : init_flags env st dep with ⟨s, e⟩
  have hsp : st.additional_allowed_shared_lib_paths ⊆
      s.additional_allowed_shared_lib_paths := by
    have h := init_flags_paths env st dep
    rw [hif] at h
    simpa using h
  cases e <;> dsimp only <;> repeat' split
  all_goals
    first
    | exact hsp
    | · simp only [save_build_stamp_paths, add_rpath_paths]
        first
        | exact hsp
        | exact List.Subset.trans hsp (subset_insertPath _ _)
        | exact List.Subset.trans hsp
            (List.Subset.trans (subset_insertPath _ _) (subset_insertPath _ _))

theorem build_dependency_rpath_entries (env : BuildEnv) (args : Args) (st : BState)
    (dep : Dependency)
    (h : (build_dependency env args st dep true).error = none) :
    pjoin (pjoin env.tp_installed_dir st.build_type.dirName) "lib" ∈
        (build_dependency env args st dep true).state.additional_allowed_shared_lib_paths ∧
      (st.build_type ≠ BuildType.common →
        pjoin (pjoin env.tp_installed_dir BuildType.common.dirName) "lib" ∈
          (build_dependency env args st dep
            true).state.additional_allowed_shared_lib_paths) := by
  unfold build_dependency at *
  rcases hif : init_flags env st dep with ⟨s, e⟩
  rw [hif] at h
  have hsbt : s.build_type = st.build_type := by
    have h2 := init_flags_build_type env st dep
    rw [hif] at h2
    simpa using h2
  cases e
  case some => simp at h
  case none =>
    dsimp only at h ⊢
    rw [if_pos rfl]
    split
    case isTrue hne =>
      constructor
      · simp only [add_rpath_paths, hsbt]
        exact mem_insertPath_of_mem _ (mem_insertPath_self _ _)
      · intro _
        simp only [add_rpath_paths, hsbt]
        exact mem_insertPath_self _ _
    case isFalse hne =>
      simp only [add_rpath_build_type, hsbt] at hne
      constructor
      · simp only [add_rpath_paths, hsbt]
        exact mem_insertPath_self _ _
      · intro hc
        exact absurd (by simpa using hne) hc

theorem process_dependency_build_type (env : BuildEnv) (args : Args) (st : BState)
    (dep : Dependency) :
    (process_dependency env args st dep).state.build_type = st.build_type := by
  unfold process_dependency
  rcases hpre : perform_pre_build_steps env st dep with ⟨ps, pev, perr⟩
  have hbt : ps.build_type = st.build_type := by
    have h := pre_build_build_type env st dep
    rw [hpre] at h
    simpa using h
  cases perr
  case some => simpa using hbt
  case none =>
    dsimp only
    split
    · have h := build_dependency_build_type env args ps dep false
      simpa [hbt] using h
    · rcases hbd : build_dependency env args ps dep true with ⟨bs, bev, berr⟩
      have h := build_dependency_build_type env args ps dep true
      rw [hbd] at h
      cases berr <;> simpa [hbt] using h

theorem process_dependency_events_about (env : BuildEnv) (args : Args) (st : BState)
    (dep : Dependency) :
    ∀ e ∈ (process_dependency env args st dep).events, aboutDep dep st.build_type e := by
  unfold process_dependency
  rcases hpre : perform_pre_build_steps env st dep with ⟨ps, pev, perr⟩
  have hev : pev = [Event.preBuild dep st.build_type] := by
    have h := pre_build_events env st dep
    rw [hpre] at h
    simpa using h
  have hbt : ps.build_type = st.build_type := by
    have h := pre_build_build_type env st dep
    rw [hpre] at h
    simpa using h
  have hbdev : ∀ opf, (build_dependency env args ps dep opf).events =
      [Event.buildDep dep st.build_type opf] := by
    intro opf
    rw [build_dependency_events, hbt]
  cases perr
  case some =>
    dsimp only
    intro e he
    rw [hev] at he
    simp only [List.mem_singleton] at he
    subst he
    exact Or.inl rfl
  case none =>
    dsimp only
    split
    · intro e he
      simp only [hev, hbdev false, List.mem_append, List.mem_singleton] at he
      rcases he with rfl | rfl
      · exact Or.inl rfl
      · exact Or.inr (Or.inl ⟨_, rfl⟩)
    · rcases hbd : build_dependency env args ps dep true with ⟨bs, bev, berr⟩
      have hbev : bev = [Event.buildDep dep st.build_type true] := by
        have h := hbdev true
        rw [hbd] at h
        simpa using h
      cases berr <;> dsimp only <;> intro e he <;>
        simp only [hev, hbev, List.mem_append, List.mem_singleton] at he
      · rcases he with (rfl | rfl) | rfl
        · exact Or.inl rfl
        · exact Or.inr (Or.inl ⟨_, rfl⟩)
        · exact Or.inr (Or.inr ⟨_, _, rfl⟩)
      · rcases he with rfl | rfl
        · exact Or.inl rfl
        · exact Or.inr (Or.inl ⟨_, rfl⟩)

/-- Every event emitted by the dependency loop concerns a dependency of the
list whose build group matches, under the loop's (constant) build type. -/
theorem build_deps_loop_events_about (env : BuildEnv) (args : Args) (bg : BuildGroup) :
    ∀ (deps : List Dependency) (st : BState),
      ∀ e ∈ (build_deps_loop env args bg st deps).events,
        ∃ dep ∈ deps, bg = dep.build_group ∧ aboutDep dep st.build_type e := by
  intro deps
  induction deps with
  | nil => intro st e he; simp [build_deps_loop] at he
  | cons dep rest ih =>
    intro st e he
    unfold build_deps_loop at he
    split at he
    case isTrue hbg =>
      rcases hproc : process_dependency env args st dep with ⟨qs, qev, qerr⟩
      rw [hproc] at he
      have hqabout : ∀ e ∈ qev, aboutDep dep st.build_type e := by
        have h := process_dependency_events_about env args st dep
        rw [hproc] at h
        simpa using h
      have hqbt : qs.build_type = st.build_type := by
        have h := process_dependency_build_type env args st dep
        rw [hproc] at h
        simpa using h
      cases qerr
      case some =>
        dsimp only at he
        exact ⟨dep, List.mem_cons_self dep rest, hbg, hqabout e he⟩
      case none =>
        dsimp only at he
        rw [List.mem_append] at he
        rcases he with he | he
        · exact ⟨dep, List.mem_cons_self dep rest, hbg, hqabout e he⟩
        · rcases ih qs e he with ⟨dep2, hd2, hbg2, habout⟩
          exact ⟨dep2, List.mem_cons_of_mem dep hd2, hbg2, hqbt ▸ habout⟩
    case isFalse hbg =>
      rcases ih st e he with ⟨dep2, hd2, hbg2, habout⟩
      exact ⟨dep2, List.mem_cons_of_mem dep hd2, hbg2, habout⟩

theorem build_deps_loop_visitedCalls (env : BuildEnv) (args : Args) (bg : BuildGroup)
    (deps : List Dependency) (st : BState) :
    visitedCalls (build_deps_loop env args bg st deps).events = [] := by
  unfold visitedCalls
  rw [List.filterMap_eq_nil_iff]
  intro e he
  rcases build_deps_loop_events_about env args bg deps st e he with ⟨dep, _, _, habout⟩
  exact aboutDep_visitedOf habout

theorem build_deps_loop_executed (env : BuildEnv) (args : Args) (bg : BuildGroup)
    (deps : List Dependency) (st : BState) :
    executedBuildTypes (build_deps_loop env args bg st deps).events = [] := by
  unfold executedBuildTypes
  rw [List.filterMap_eq_nil_iff]
  intro e he
  rcases build_deps_loop_events_about env args bg deps st e he with ⟨dep, _, _, habout⟩
  exact aboutDep_executedOf habout

theorem build_one_build_type_visitedCalls (env : BuildEnv) (args : Args)
    (selected : List Dependency) (st : BState) (bt : BuildType) :
    visitedCalls (build_one_build_type env args selected st bt).events = [bt] := by
  unfold build_one_build_type
  split
  · rfl
  · dsimp only
    unfold visitedCalls
    rw [List.filterMap_cons]
    have h := build_deps_loop_visitedCalls env args (build_group_for_build_type bt) selected
      (set_build_type st bt)
    unfold visitedCalls at h
    simp [Event.visitedOf, h]

theorem build_one_build_type_executed (env : BuildEnv) (args : Args)
    (selected : List Dependency) (st : BState) (bt : BuildType) :
    executedBuildTypes (build_one_build_type env args selected st bt).events =
      if build_type_arg_skipped args bt then [] else [bt] := by
  unfold build_one_build_type
  split
  case isTrue h =>
    rfl
  case isFalse h =>
    dsimp only
    unfold executedBuildTypes
    rw [List.filterMap_cons]
    have h2 := build_deps_loop_executed env args (build_group_for_build_type bt) selected
      (set_build_type st bt)
    unfold executedBuildTypes at h2
    simp [Event.executedOf, h2]

theorem run_loop_visited (env : BuildEnv) (args : Args) (selected : List Dependency) :
    ∀ (bts : List BuildType) (st : BState),
      (run_build_types_loop env args selected st bts).error = none →
      visitedCalls (run_build_types_loop env args selected st bts).events = bts := by
  intro bts
  induction bts with
  | nil => intro st _; rfl
  | cons bt rest ih =>
    intro st h
    rcases hr : build_one_build_type env args selected st bt with ⟨s1, ev1, err1⟩
    unfold run_build_types_loop at h ⊢
    rw [hr] at h ⊢
    cases err1
    case some => exact absurd h (by simp)
    case none =>
      dsimp only at h ⊢
      unfold visitedCalls
      rw [List.filterMap_append]
      have h1 := build_one_build_type_visitedCalls env args selected st bt
      rw [hr] at h1
      unfold visitedCalls at h1
      dsimp only at h1
      rw [h1]
      have h2 := ih s1 h
      unfold visitedCalls at h2
      rw [h2]
      rfl

theorem run_loop_executed (env : BuildEnv) (args : Args) (selected : List Dependency) :
    ∀ (bts : List BuildType) (st : BState),
      (run_build_types_loop env args selected st bts).error = none →
      executedBuildTypes (run_build_types_loop env args selected st bts).events =
        bts.filter (fun bt => !build_type_arg_skipped args bt) := by
  intro bts
  induction bts with
  | nil => intro st _; rfl
  | cons bt rest ih =>
    intro st h
    rcases hr : build_one_build_type env args selected st bt with ⟨s1, ev1, err1⟩
    unfold run_build_types_loop at h ⊢
    rw [hr] at h ⊢
    cases err1
    case some => exact absurd h (by simp)
    case none =>
      dsimp only at h ⊢
      unfold executedBuildTypes
      rw [List.filterMap_append, List.filter_cons]
      have h1 := build_one_build_type_executed env args selected st bt
      rw [hr] at h1
      unfold executedBuildTypes at h1
      dsimp only at h1
      rw [h1]
      have h2 := ih s1 h
      unfold executedBuildTypes at h2
      rw [h2]
      cases hsk : build_type_arg_skipped args bt <;> simp [hsk]

theorem run_visited (env : BuildEnv) (args : Args) (selected : List Dependency) (st : BState)
    (h : (run env args selected st).error = none) :
    visitedCalls (run env args selected st).events = run_build_type_calls env args := by
  rcases hr0 : build_one_build_type env args selected st BuildType.common with ⟨s0, ev0, err0⟩
  unfold run at h ⊢
  rw [hr0] at h ⊢
  cases err0
  case some => exact absurd h (by simp)
  case none =>
    dsimp only at h ⊢
    rcases hr1 : run_build_types_loop env args selected s0
        (run_instrumented_build_types env args) with ⟨s1, ev1, err1⟩
    rw [hr1] at h
    dsimp only at h
    subst h
    unfold visitedCalls
    rw [List.filterMap_append, List.filterMap_append]
    have h0 := build_one_build_type_visitedCalls env args selected st BuildType.common
    rw [hr0] at h0
    unfold visitedCalls at h0
    dsimp only at h0
    rw [h0]
    have h1 := run_loop_visited env args selected (run_instrumented_build_types env args) s0
      (by rw [hr1])
    rw [hr1] at h1
    unfold visitedCalls at h1
    dsimp only at h1
    rw [h1]
    rfl

theorem run_executed (env : BuildEnv) (args : Args) (selected : List Dependency) (st : BState)
    (h : (run env args selected st).error = none) :
    executedBuildTypes (run env args selected st).events =
      BuildType.common ::
        (run_instrumented_build_types env args).filter
          (fun bt => !build_type_arg_skipped args bt) := by
  rcases hr0 : build_one_build_type env args selected st BuildType.common with ⟨s0, ev0, err0⟩
  unfold run at h ⊢
  rw [hr0] at h ⊢
  cases err0
  case some => exact absurd h (by simp)
  case none =>
    dsimp only at h ⊢
    rcases hr1 : run_build_types_loop env args selected s0
        (run_instrumented_build_types env args) with ⟨s1, ev1, err1⟩
    rw [hr1] at h
    dsimp only at h
    subst h
    unfold executedBuildTypes
    rw [List.filterMap_append, List.filterMap_append]
    have h0 := build_one_build_type_executed env args selected st BuildType.common
    rw [hr0] at h0
    unfold executedBuildTypes at h0
    dsimp only at h0
    rw [if_neg (by simp [build_type_arg_skipped])] at h0
    rw [h0]
    have h1 := run_loop_executed env args selected (run_instrumented_build_types env args) s0
      (by rw [hr1])
    rw [hr1] at h1
    unfold executedBuildTypes at h1
    dsimp only at h1
    rw [h1]
    rfl

/-- C1: for every run, the sequence of `build_one_build_type` calls is
`COMMON` then `UNINSTRUMENTED`, with `ASAN` then `TSAN` appended exactly when
the platform is Linux, only Clang is in use, and sanitizers were not
disabled; with `--skip-sanitizers` it is exactly `[COMMON, UNINSTRUMENTED]`
regardless of platform and compiler, and an error-free `run` visits exactly
that sequence. -/
theorem claim_C1_scheduler_order (env : BuildEnv) (args : Args)
    (selected : List Dependency) (st : BState) :
    ((run env args selected st).error = none →
      visitedCalls (run env args selected st).events = run_build_type_calls env args) ∧
    run_build_type_calls env args =
      [BuildType.common, BuildType.uninstrumented] ++
        (if env.os = OSFamily.linux ∧ env.use_only_clang = true ∧
            ¬args.skip_sanitizers = true then
          [BuildType.asan, BuildType.tsan]
        else []) ∧
    ((BuildType.asan ∈ run_build_type_calls env args ∧
        BuildType.tsan ∈ run_build_type_calls env args) ↔
      (env.os = OSFamily.linux ∧ env.use_only_clang = true ∧
        args.skip_sanitizers = false)) ∧
    (args.skip_sanitizers = true →
      run_build_type_calls env args = [BuildType.common, BuildType.uninstrumented]) := by
  refine ⟨run_visited env args selected st, rfl, ?_, ?_⟩
  · by_cases h1 : env.os = OSFamily.linux <;>
      by_cases h2 : env.use_only_clang = true <;>
      cases h3 : args.skip_sanitizers <;>
      simp [run_build_type_calls, run_instrumented_build_types, h1, h2, h3]
  · intro h3
    simp [run_build_type_calls, run_instrumented_build_types, h3]

/-- C1 witness: a concrete error-free run on Linux with clang-only and
sanitizers enabled visits `[COMMON, UNINSTRUMENTED, ASAN, TSAN]`. -/
def envC1 : BuildEnv :=
  { os := OSFamily.linux
    single_compiler_type := some CompilerType.clang
    use_only_clang := true
    building_with_clang := fun _ => true
    llvm_major_version := some 11
    using_linuxbrew := false
    linuxbrew_dir := ""
    cc := some "/opt/llvm/bin/clang"
    clang_library_dir := "/opt/llvm/lib/clang/11/lib/linux"
    processor := "x86_64"
    toolchain_type := none
    tp_installed_dir := "/opt/yb/installed"
    fingerprint := fun _ => "stamp-v1"
    src_dirs_present := ["zlib"]
    path_exists := fun _ => true }

def argsC1 : Args :=
  { dependencies := []
    skip := none
    build_type := none
    skip_sanitizers := false
    download_extract_only := false
    verbose := false }

def stInit : BState :=
  { flags := FlagState.empty
    additional_allowed_shared_lib_paths := []
    dylib_suffix := ""
    build_type := BuildType.common
    stamps := []
    fossa_modules := [] }

theorem claim_C1_scheduler_order_witness :
    visitedCalls (run envC1 argsC1 [] stInit).events = run_build_type_calls envC1 argsC1 ∧
    run_build_type_calls envC1 argsC1 =
      [BuildType.common, BuildType.uninstrumented, BuildType.asan, BuildType.tsan] ∧
    run_build_type_calls envC1 { argsC1 with skip_sanitizers := true } =
      [BuildType.common, BuildType.uninstrumented] := by
  refine ⟨(claim_C1_scheduler_order envC1 argsC1 [] stInit).1 (by rfl), by rfl, ?_⟩
  exact (claim_C1_scheduler_order envC1 { argsC1 with skip_sanitizers := true } [] stInit).2.2.2
    rfl

/-- A concrete `COMMON`-group dependency used by witnesses. -/
def depZlib : Dependency :=
  { name := "zlib"
    version := "1.2.11"
    build_group := BuildGroup.common
    dir_name := some "zlib-1.2.11"
    copy_sources := true
    archive_name := some "zlib-1.2.11.tar.gz"
    download_ok := true
    build_ok := true
    should_build := true
    additional_compiler_flags := []
    additional_c_flags := []
    additional_cxx_flags := []
    additional_ld_flags := [] }

/-- C2: for a dependency that declares a source directory, the rebuild
decision returns "up to date" (no rebuild) exactly when the stored stamp
equals the freshly computed fingerprint and the source directory exists;
absence of the stamp or of the source directory each force a rebuild. -/
theorem claim_C2_up_to_date_iff (env : BuildEnv) (st : BState) (dep : Dependency)
    (d : String) (hd : dep.dir_name = some d) :
    (should_rebuild_dependency env st dep = false ↔
      (lookupStamp st.stamps (dep.name, st.build_type) = some (env.fingerprint dep.name) ∧
        env.src_dirs_present.contains dep.name = true)) ∧
    (lookupStamp st.stamps (dep.name, st.build_type) = none →
      should_rebuild_dependency env st dep = true) ∧
    (env.src_dirs_present.contains dep.name = false →
      should_rebuild_dependency env st dep = true) := by
  unfold should_rebuild_dependency
  rw [hd]
  dsimp only
  cases hcont : env.src_dirs_present.contains dep.name <;> simp only [hcont] <;>
    split <;> simp_all

theorem claim_C2_up_to_date_iff_witness :
    should_rebuild_dependency envC1
      { stInit with stamps := [(("zlib", BuildType.common), "stamp-v1")] } depZlib = false ∧
    should_rebuild_dependency envC1 stInit depZlib = true := by
  constructor
  · exact (claim_C2_up_to_date_iff envC1
      { stInit with stamps := [(("zlib", BuildType.common), "stamp-v1")] } depZlib
      "zlib-1.2.11" rfl).1.mpr (by decide)
  · exact (claim_C2_up_to_date_iff envC1 stInit depZlib "zlib-1.2.11" rfl).2.1 (by decide)

/-- C3: the fingerprint stamp of a (dependency, configuration) pair is
written only by a successful, actually-performed build: any error leaves the
stamp store unchanged; any change to the stamp store implies the build ran
(not skipped, not download-extract-only, recipe succeeded) and wrote exactly
the fresh fingerprint; an error from processing a dependency aborts the
dependency loop with that error. -/
theorem claim_C3_stamp_only_after_success (env : BuildEnv) (args : Args) (st : BState)
    (dep : Dependency) (opf : Bool) :
    ((build_dependency env args st dep opf).error.isSome →
      (build_dependency env args st dep opf).state.stamps = st.stamps) ∧
    ((build_dependency env args st dep opf).state.stamps ≠ st.stamps →
      (build_dependency env args st dep opf).error = none ∧ opf = false ∧
        args.download_extract_only = false ∧ dep.build_ok = true ∧
        (build_dependency env args st dep opf).state.stamps =
          writeStamp st.stamps (dep.name, st.build_type) (env.fingerprint dep.name)) ∧
    ((build_dependency env args st dep false).error = none →
      args.download_extract_only = false →
      (build_dependency env args st dep false).state.stamps =
        writeStamp st.stamps (dep.name, st.build_type) (env.fingerprint dep.name) ∧
        dep.build_ok = true) ∧
    (∀ (rest : List Dependency) (e : BuildError) (bg : BuildGroup),
      bg = dep.build_group →
      (process_dependency env args st dep).error = some e →
      (build_deps_loop env args bg st (dep :: rest)).error = some e) := by
  refine ⟨?_, ?_, ?_, ?_⟩
  · intro h
    exact build_dependency_stamps_unchanged env args st dep opf (Or.inl h)
  · intro hne
    rcases herr : (build_dependency env args st dep opf).error with _ | e
    · rcases hopf : opf with _ | _
      · rcases hdlx : args.download_extract_only with _ | _
        · have hs := build_dependency_stamps_on_success env args st dep (hopf ▸ herr) hdlx
          exact ⟨rfl, rfl, rfl, hs.2, hopf ▸ hs.1⟩
        · exact absurd (build_dependency_stamps_unchanged env args st dep opf
            (Or.inr (Or.inr hdlx))) hne
      · exact absurd (build_dependency_stamps_unchanged env args st dep opf
          (Or.inr (Or.inl hopf))) hne
    · exact absurd (build_dependency_stamps_unchanged env args st dep opf
        (Or.inl (by rw [herr]; rfl))) hne
  · intro herr hdlx
    exact build_dependency_stamps_on_success env args st dep herr hdlx
  · intro rest e bg hbg hproc
    unfold build_deps_loop
    rw [if_pos hbg]
    rcases hp : process_dependency env args st dep with ⟨qs, qev, qerr⟩
    rw [hp] at hproc
    dsimp only at hproc
    subst hproc
    rfl

theorem claim_C3_stamp_only_after_success_witness :
    (build_dependency envC1 argsC1 stInit depZlib false).state.stamps =
        writeStamp stInit.stamps ("zlib", BuildType.common) (envC1.fingerprint "zlib") ∧
      depZlib.build_ok = true := by
  exact (claim_C3_stamp_only_after_success envC1 argsC1 stInit depZlib false).2.2.1
    (by decide) (by decide)

/-- C4: within one `build_one_build_type` call, every dependency-level step
(pre-build announcement/download and every `build_dependency` call, whether
flags-only or a real build) concerns a dependency whose declared build group
equals the build group of the processed configuration. -/
theorem claim_C4_build_group_gating (env : BuildEnv) (args : Args)
    (selected : List Dependency) (st : BState) (bt : BuildType) :
    (∀ dep bt', Event.preBuild dep bt' ∈
        (build_one_build_type env args selected st bt).events →
      dep.build_group = build_group_for_build_type bt') ∧
    (∀ dep bt' opf, Event.buildDep dep bt' opf ∈
        (build_one_build_type env args selected st bt).events →
      dep.build_group = build_group_for_build_type bt') := by
  constructor
  · intro dep bt' he
    unfold build_one_build_type at he
    split at he
    · simp at he
    · dsimp only at he
      rcases List.mem_cons.mp he with h | h
      · exact absurd h (by simp)
      · rcases build_deps_loop_events_about env args (build_group_for_build_type bt) selected
            (set_build_type st bt) _ h with ⟨dep2, _, hbg, habout⟩
        rcases habout with heq | ⟨opf2, heq⟩ | ⟨a, b, heq⟩
        · simp only [Event.preBuild.injEq, set_build_type_build_type] at heq
          obtain ⟨rfl, rfl⟩ := heq
          exact hbg.symm
        · simp at heq
        · simp at heq
  · intro dep bt' opf he
    unfold build_one_build_type at he
    split at he
    · simp at he
    · dsimp only at he
      rcases List.mem_cons.mp he with h | h
      · exact absurd h (by simp)
      · rcases build_deps_loop_events_about env args (build_group_for_build_type bt) selected
            (set_build_type st bt) _ h with ⟨dep2, _, hbg, habout⟩
        rcases habout with heq | ⟨opf2, heq⟩ | ⟨a, b, heq⟩
        · simp at heq
        · simp only [Event.buildDep.injEq, set_build_type_build_type] at heq
          obtain ⟨rfl, rfl, rfl⟩ := heq
          exact hbg.symm
        · simp at heq

theorem claim_C4_build_group_gating_witness :
    depZlib.build_group = build_group_for_build_type BuildType.common := by
  exact (claim_C4_build_group_gating envC1 argsC1 [depZlib] stInit BuildType.common).1
    depZlib BuildType.common (by decide)

/-- C5 counterexample: with `--build-type=UNINSTRUMENTED` on Linux with
clang-only and sanitizers enabled, the run's log output still names `ASAN`:
the "Skipping build type asan" line is emitted (and the "Full list of build
types" line also lists it), contradicting "the ASAN/TSAN steps are entirely
absent, even in log/state output". -/
theorem claim_C5_counterexample :
    Event.logSkipBuildType BuildType.asan BuildType.uninstrumented ∈
        (run envC1 { argsC1 with build_type := some BuildType.uninstrumented }
          [] stInit).events ∧
      Event.logFullBuildTypeList
          [BuildType.uninstrumented, BuildType.asan, BuildType.tsan] ∈
        (run envC1 { argsC1 with build_type := some BuildType.uninstrumented }
          [] stInit).events ∧
      (Event.logSkipBuildType BuildType.asan
        BuildType.uninstrumented).mentionsBuildType BuildType.asan = true := by
  decide

/-- C5 (amended): when a single target configuration is requested via
`--build-type`, an error-free run actually executes (`set_build_type` and
dependency processing) only `COMMON` and the requested configuration, in
call order — for `--build-type=UNINSTRUMENTED` exactly
`[COMMON, UNINSTRUMENTED]`; the other configurations are skipped before any
processing, though a skip log line naming them is still emitted. -/
theorem claim_C5_single_build_type (env : BuildEnv) (args : Args)
    (selected : List Dependency) (st : BState) (req : BuildType)
    (hreq : args.build_type = some req)
    (h : (run env args selected st).error = none) :
    executedBuildTypes (run env args selected st).events =
      (run_build_type_calls env args).filter
        (fun bt => bt == BuildType.common || bt == req) := by
  rw [run_executed env args selected st h]
  unfold run_build_type_calls
  rw [List.filter_cons]
  rw [if_pos (by simp)]
  congr 1
  apply List.filter_congr
  intro x _
  simp only [build_type_arg_skipped, hreq]
  cases x <;> cases req <;> decide

theorem claim_C5_single_build_type_witness :
    executedBuildTypes
        (run envC1 { argsC1 with build_type := some BuildType.uninstrumented }
          [] stInit).events =
      [BuildType.common, BuildType.uninstrumented] := by
  have h := claim_C5_single_build_type envC1
    { argsC1 with build_type := some BuildType.uninstrumented } [] stInit
    BuildType.uninstrumented rfl (by decide)
  rw [h]
  decide

/-- C6: the per-dependency flag initialization rebuilds all seven flag
sequences from scratch: its result does not depend in any way on the flag
sequences left over from the previous dependency, so for fixed
(environment, configuration, dependency) inputs the resulting baseline
flags (and error outcome) are identical no matter what flag state was
present before the call. -/
theorem claim_C6_flag_reset (env : BuildEnv) (dep : Dependency) (f1 f2 : FlagState)
    (p : List String) (d : String) (bt : BuildType)
    (stamps : List ((String × BuildType) × String)) (fm : List String) :
    init_flags env ⟨f1, p, d, bt, stamps, fm⟩ dep =
      init_flags env ⟨f2, p, d, bt, stamps, fm⟩ dep := rfl

/-- C7: each effective flag accessor returns the configuration-scoped base
flags followed by the dependency's own additional flags (append-only, the
dependency's overrides last).  For the preprocessor category the
`Dependency` interface offers no per-dependency overrides, so its extras
are empty. -/
theorem claim_C7_effective_flag_composition (st : BState) (dep : Dependency) :
    get_effective_c_flags st dep =
      (st.flags.c_flags ++ st.flags.compiler_flags) ++
        (dep.additional_compiler_flags ++ dep.additional_c_flags) ∧
    get_effective_cxx_flags st dep =
      (st.flags.cxx_flags ++ st.flags.compiler_flags) ++
        (dep.additional_compiler_flags ++ dep.additional_cxx_flags) ∧
    get_effective_ld_flags st dep = st.flags.ld_flags ++ dep.additional_ld_flags ∧
    get_effective_executable_ld_flags st dep =
      (st.flags.ld_flags ++ st.flags.executable_only_ld_flags) ++
        dep.additional_ld_flags ∧
    get_effective_preprocessor_flags st dep = st.flags.preprocessor_flags ++ [] := by
  unfold get_effective_c_flags get_effective_cxx_flags get_effective_ld_flags
    get_effective_executable_ld_flags get_effective_preprocessor_flags
    get_effective_compiler_flags
  simp [List.append_assoc]

/-- The compiler-flag content of the modern Clang path under `ASAN`: the
previous compiler flags, then `-shared-libasan`, then `-fno-sanitize=vptr`
exactly when the dependency's name ends in `_libcxxabi`. -/
theorem clang1x_asan_compiler_flags (env : BuildEnv) (st : BState) (dep : Dependency)
    (hbt : st.build_type = BuildType.asan) :
    (init_linux_clang1x_flags env st dep).1.flags.compiler_flags =
      st.flags.compiler_flags ++ ["-shared-libasan"] ++
        (if str_ends_with dep.name "_libcxxabi" then ["-fno-sanitize=vptr"] else []) := by
  unfold init_linux_clang1x_flags
  dsimp only
  rw [if_neg (by simp [hbt])]
  try dsimp only
  rw [if_pos (by simp [hbt])]
  rcases hstep : clang1x_asan_step env (addLdFlags st ["-rtlib=compiler-rt"])
      (str_ends_with dep.name "_libcxxabi") with ⟨s, e⟩
  have hcf : s.flags.compiler_flags =
      st.flags.compiler_flags ++ ["-shared-libasan"] ++
        (if str_ends_with dep.name "_libcxxabi" then ["-fno-sanitize=vptr"] else []) := by
    have h := clang1x_asan_step_compiler_flags env (addLdFlags st ["-rtlib=compiler-rt"])
      (str_ends_with dep.name "_libcxxabi")
    rw [hstep] at h
    simpa using h
  cases e
  · dsimp only
    split <;> (try split) <;> (try split) <;> (try split) <;> simp_all [hcf]
  · simpa using hcf

/-- C8 counterexample: under `ASAN` on the modern Clang path, the
standard-library dependency (name ending in `_libcxx`) does NOT receive
`-fno-sanitize=vptr` — only the `_libcxxabi` dependency does — although the
shared-sanitizer-runtime flag is added. -/
theorem claim_C8_counterexample :
    (str_ends_with "llvm1x_libcxx" "_libcxx" = true) ∧
    "-shared-libasan" ∈ (init_linux_clang1x_flags envC1
        { stInit with build_type := BuildType.asan }
        { depZlib with name := "llvm1x_libcxx" }).1.flags.compiler_flags ∧
    ¬ ("-fno-sanitize=vptr" ∈ (init_linux_clang1x_flags envC1
        { stInit with build_type := BuildType.asan }
        { depZlib with name := "llvm1x_libcxx" }).1.flags.compiler_flags) := by
  decide

/-- C8 (amended): on the modern Clang path under `ASAN`, the flag derivation
adds `-shared-libasan` for every dependency, and suppresses vptr
sanitization (`-fno-sanitize=vptr`) exactly for the dependency whose name
ends in `_libcxxabi` (the ABI-implementation library); the `_libcxx`
standard-library dependency is not given the suppression flag. -/
theorem claim_C8_asan_flag_derivation (env : BuildEnv) (st : BState) (dep : Dependency)
    (hbt : st.build_type = BuildType.asan)
    (hvptr : "-fno-sanitize=vptr" ∉ st.flags.compiler_flags) :
    "-shared-libasan" ∈ (init_linux_clang1x_flags env st dep).1.flags.compiler_flags ∧
    ("-fno-sanitize=vptr" ∈ (init_linux_clang1x_flags env st dep).1.flags.compiler_flags ↔
      str_ends_with dep.name "_libcxxabi" = true) := by
  rw [clang1x_asan_compiler_flags env st dep hbt]
  constructor
  · simp
  · cases habi : str_ends_with dep.name "_libcxxabi" <;> simp [habi, hvptr]

theorem claim_C8_asan_flag_derivation_witness :
    "-shared-libasan" ∈ (init_linux_clang1x_flags envC1
        { stInit with build_type := BuildType.asan }
        { depZlib with name := "llvm1x_libcxxabi" }).1.flags.compiler_flags ∧
    "-fno-sanitize=vptr" ∈ (init_linux_clang1x_flags envC1
        { stInit with build_type := BuildType.asan }
        { depZlib with name := "llvm1x_libcxxabi" }).1.flags.compiler_flags := by
  have h := claim_C8_asan_flag_derivation envC1
    { stInit with build_type := BuildType.asan }
    { depZlib with name := "llvm1x_libcxxabi" } rfl (by decide)
  exact ⟨h.1, h.2.mpr (by decide)⟩

/-! ### Facts about sorting and the skip fold (for selection) -/

theorem mem_insertSorted {a x : String} :
    ∀ {l : List String}, a ∈ insertSorted x l ↔ a = x ∨ a ∈ l := by
  intro l
  induction l with
  | nil => simp [insertSorted]
  | cons y ys ih =>
    unfold insertSorted
    split
    · simp
    · simp only [List.mem_cons, ih]
      tauto

theorem mem_sortStrings {a : String} :
    ∀ {l : List String}, a ∈ sortStrings l ↔ a ∈ l := by
  intro l
  induction l with
  | nil => simp [sortStrings]
  | cons x xs ih =>
    unfold sortStrings at ih ⊢
    rw [List.foldr_cons, mem_insertSorted, ih, List.mem_cons]

theorem mem_sortedNames {a : String} {l : List String} :
    a ∈ sortedNames l ↔ a ∈ l := by
  unfold sortedNames
  rw [mem_sortStrings, List.mem_dedup]

theorem skip_fold_keeps (n : String) :
    ∀ (deps : List Dependency) (acc : List String × List Dependency),
      n ∈ acc.1 → (∀ dep ∈ deps, dep.name ≠ n) →
      n ∈ (deps.foldl skip_select_step acc).1 := by
  intro deps
  induction deps with
  | nil => intro acc h _; simpa using h
  | cons dep rest ih =>
    intro acc h hne
    rw [List.foldl_cons]
    apply ih
    · unfold skip_select_step
      split
      · dsimp only
        rw [List.mem_filter]
        refine ⟨h, ?_⟩
        simp only [ne_eq, decide_not, Bool.not_eq_true', decide_eq_false_iff_not]
        exact fun hh => (hne dep (List.mem_cons_self dep rest)) hh.symm
      · exact h
    · intro d hd
      exact hne d (List.mem_cons_of_mem _ hd)

theorem skip_fold_final (n : String) :
    ∀ (deps : List Dependency) (acc : List String × List Dependency),
      n ∈ (deps.foldl skip_select_step acc).1 →
      n ∈ acc.1 ∧ ∀ dep ∈ deps, dep.name ≠ n := by
  intro deps
  induction deps with
  | nil => intro acc h; exact ⟨h, by simp⟩
  | cons dep rest ih =>
    intro acc h
    rw [List.foldl_cons] at h
    rcases ih _ h with ⟨h1, h2⟩
    unfold skip_select_step at h1
    split at h1
    case isTrue hmem =>
      dsimp only at h1
      rw [List.mem_filter] at h1
      refine ⟨h1.1, ?_⟩
      intro d hd
      rcases List.mem_cons.mp hd with rfl | hd2
      · intro hcontra
        have hne := h1.2
        simp only [ne_eq, decide_not, Bool.not_eq_true', decide_eq_false_iff_not] at hne
        exact hne hcontra.symm
      · exact h2 d hd2
    case isFalse hmem =>
      dsimp only at h1
      refine ⟨h1, ?_⟩
      intro d hd
      rcases List.mem_cons.mp hd with rfl | hd2
      · intro hcontra
        exact hmem (hcontra ▸ h1)
      · exact h2 d hd2

/-- C9 counterexample: a skip list naming an unknown dependency is rejected,
but the error lists only the unknown skip names, not the full set of valid
dependency names as the claim states. -/
theorem claim_C9_counterexample :
    select_dependencies_to_build { argsC1 with skip := some ["nosuchdep"] }
        [{ depZlib with name := "boost" }, depZlib] =
      Except.error (SelectError.unknownSkipped ["nosuchdep"]) ∧
    (SelectError.unknownSkipped ["nosuchdep"]).listedNames ≠
      sortedNames ([{ depZlib with name := "boost" }, depZlib].map (·.name)) :=
  ⟨rfl, by decide⟩

/-- C9 (amended): any selection request naming a dependency not in the
catalog fails before any build with a configuration error; for the explicit
include list the error lists the sorted full set of valid dependency names,
while for the skip list the error lists (only) the sorted skip names that
matched no dependency. -/
theorem claim_C9_unknown_name_errors (args : Args) (deps : List Dependency) :
    (args.dependencies ≠ [] →
      (∃ d ∈ args.dependencies, !((deps.map (·.name)).contains d)) →
      ∃ bad, select_dependencies_to_build args deps =
        Except.error (SelectError.unknownDependencyName bad
          (sortedNames (deps.map (·.name)))) ∧
        (SelectError.unknownDependencyName bad
            (sortedNames (deps.map (·.name)))).listedNames =
          sortedNames (deps.map (·.name))) ∧
    (args.dependencies = [] → ∀ l, args.skip = some l →
      (∃ n ∈ l, ∀ dep ∈ deps, dep.name ≠ n) →
      ∃ ns, select_dependencies_to_build args deps =
        Except.error (SelectError.unknownSkipped ns) ∧
        ∀ m ∈ ns, ∀ dep ∈ deps, dep.name ≠ m) := by
  constructor
  · rintro hne ⟨d, hd, hdc⟩
    unfold select_dependencies_to_build
    rw [if_pos hne]
    dsimp only
    rcases hfind : args.dependencies.find? (fun d => !((deps.map (·.name)).contains d))
      with _ | bad
    · rw [List.find?_eq_none] at hfind
      have := hfind d hd
      rw [hdc] at this
      exact absurd rfl this
    · rw [hfind]
      exact ⟨bad, rfl, rfl⟩
  · rintro hdeps l hskip ⟨n, hn, hnomatch⟩
    unfold select_dependencies_to_build
    rw [if_neg (by simp [hdeps])]
    rw [hskip]
    dsimp only
    have hkeep : n ∈ (deps.foldl skip_select_step (l.dedup, ([] : List Dependency))).1 :=
      skip_fold_keeps n deps (l.dedup, []) (by simpa using List.mem_dedup.mpr hn) hnomatch
    rw [if_pos (show (deps.foldl skip_select_step (l.dedup, ([] : List Dependency))).1 ≠ []
      from fun hemp => by rw [hemp] at hkeep; simp at hkeep)]
    refine ⟨sortedNames (deps.foldl skip_select_step (l.dedup, [])).1, rfl, ?_⟩
    intro m hm
    exact (skip_fold_final m deps _ (mem_sortedNames.mp hm)).2

theorem claim_C9_unknown_name_errors_witness :
    ∃ bad, select_dependencies_to_build { argsC1 with dependencies := ["nope"] }
        [{ depZlib with name := "boost" }, depZlib] =
      Except.error (SelectError.unknownDependencyName bad
        (sortedNames ([{ depZlib with name := "boost" }, depZlib].map (·.name)))) ∧
      (SelectError.unknownDependencyName bad
          (sortedNames ([{ depZlib with name := "boost" }, depZlib].map
            (·.name)))).listedNames =
        sortedNames ([{ depZlib with name := "boost" }, depZlib].map (·.name)) := by
  exact (claim_C9_unknown_name_errors { argsC1 with dependencies := ["nope"] }
    [{ depZlib with name := "boost" }, depZlib]).1 (by decide) (by decide)

/-- C10: the allowed shared-library path set only grows: each rpath-adding
operation inserts its path and preserves existing entries, the
per-dependency flag reset never removes entries, `build_dependency`
preserves entries on every path, and the rpath entries added at the start
of `build_dependency` are recorded even when the build itself is skipped
(`only_process_flags = true`). -/
theorem claim_C10_allowed_paths_monotone :
    (∀ (st : BState) (p : String),
      st.additional_allowed_shared_lib_paths ⊆
          (add_rpath st p).additional_allowed_shared_lib_paths ∧
        p ∈ (add_rpath st p).additional_allowed_shared_lib_paths) ∧
    (∀ (st : BState) (p : String),
      st.additional_allowed_shared_lib_paths ⊆
          (prepend_rpath st p).additional_allowed_shared_lib_paths ∧
        p ∈ (prepend_rpath st p).additional_allowed_shared_lib_paths) ∧
    (∀ (st : BState) (p : String),
      st.additional_allowed_shared_lib_paths ⊆
          (add_lib_dir_and_rpath st p).additional_allowed_shared_lib_paths ∧
        p ∈ (add_lib_dir_and_rpath st p).additional_allowed_shared_lib_paths) ∧
    (∀ (st : BState) (p : String),
      st.additional_allowed_shared_lib_paths ⊆
          (prepend_lib_dir_and_rpath st p).additional_allowed_shared_lib_paths ∧
        p ∈ (prepend_lib_dir_and_rpath st p).additional_allowed_shared_lib_paths) ∧
    (∀ (env : BuildEnv) (st : BState) (dep : Dependency),
      st.additional_allowed_shared_lib_paths ⊆
        (init_flags env st dep).1.additional_allowed_shared_lib_paths) ∧
    (∀ (env : BuildEnv) (args : Args) (st : BState) (dep : Dependency) (opf : Bool),
      st.additional_allowed_shared_lib_paths ⊆
        (build_dependency env args st dep opf).state.additional_allowed_shared_lib_paths) ∧
    (∀ (env : BuildEnv) (args : Args) (st : BState) (dep : Dependency),
      (build_dependency env args st dep true).error = none →
      pjoin (pjoin env.tp_installed_dir st.build_type.dirName) "lib" ∈
          (build_dependency env args st dep true).state.additional_allowed_shared_lib_paths ∧
        (st.build_type ≠ BuildType.common →
          pjoin (pjoin env.tp_installed_dir BuildType.common.dirName) "lib" ∈
            (build_dependency env args st dep
              true).state.additional_allowed_shared_lib_paths)) := by
  refine ⟨?_, ?_, ?_, ?_, init_flags_paths, build_dependency_paths,
    build_dependency_rpath_entries⟩
  · intro st p
    exact ⟨by simp only [add_rpath_paths]; exact subset_insertPath _ _,
      by simp only [add_rpath_paths]; exact mem_insertPath_self _ _⟩
  · intro st p
    exact ⟨by simp only [prepend_rpath_paths]; exact subset_insertPath _ _,
      by simp only [prepend_rpath_paths]; exact mem_insertPath_self _ _⟩
  · intro st p
    exact ⟨by simp only [add_lib_dir_and_rpath_paths]; exact subset_insertPath _ _,
      by simp only [add_lib_dir_and_rpath_paths]; exact mem_insertPath_self _ _⟩
  · intro st p
    exact ⟨by simp only [prepend_lib_dir_and_rpath_paths]; exact subset_insertPath _ _,
      by simp only [prepend_lib_dir_and_rpath_paths]; exact mem_insertPath_self _ _⟩

theorem claim_C10_allowed_paths_monotone_witness :
    pjoin (pjoin envC1.tp_installed_dir BuildType.uninstrumented.dirName) "lib" ∈
        (build_dependency envC1 argsC1 { stInit with build_type := BuildType.uninstrumented }
          depZlib true).state.additional_allowed_shared_lib_paths ∧
      pjoin (pjoin envC1.tp_installed_dir BuildType.common.dirName) "lib" ∈
        (build_dependency envC1 argsC1 { stInit with build_type := BuildType.uninstrumented }
          depZlib true).state.additional_allowed_shared_lib_paths := by
  have h := claim_C10_allowed_paths_monotone.2.2.2.2.2.2 envC1 argsC1
    { stInit with build_type := BuildType.uninstrumented } depZlib (by decide)
  exact ⟨h.1, h.2 (by decide)⟩

end YBThirdparty
